import Mathlib

/-!
# St7789 command construction: a shallow embedding

The three headers `St7789Types.hpp`, `St7789Job.hpp` and `St7789.hpp` are
translated into Lean definitions.

Conventions of the embedding.

* Machine integers (`uint8_t`, `uint16_t`, `uint32_t`) are natural numbers; a
  value stored into a `uint8_t` cell is reduced modulo 256 at the store.
* `sizeof(uint8_t *)` is the parameter `cap` of every definition that depends
  on it (4 on the ESP32, 8 on a 64 bit host).
* Pointers to byte buffers are addresses (natural numbers) into a byte memory
  `Machine.mem`.
* The anonymous union of `St7789Command` is a value with one constructor per
  member; the constructor records the member that was written last.
* `new` and `delete` expressions append an `Event` to `Machine.events`.
* Memory that the language leaves uninitialised (the union of a new command,
  a new byte array) holds arbitrary bytes, supplied by the machine state.
-/

namespace St7789

/-! ## St7789Types.hpp -/

/-- Macro `SIZE_OF_POINTER_TO_BYTE_ARRAY`, that is `sizeof(uint8_t *)`, the parameter `cap`. -/
def SIZE_OF_POINTER_TO_BYTE_ARRAY (cap : Nat) : Nat := cap

/-- Macro `SHOULD_USE_INTERNAL_BUFFER(x)`: `(x) <= sizeof(uint8_t *)`. -/
def SHOULD_USE_INTERNAL_BUFFER (cap x : Nat) : Bool :=
  decide (x ≤ SIZE_OF_POINTER_TO_BYTE_ARRAY cap)

/-- Macro `MUST_USE_EXTERNAL_BUFFER(x)`: `sizeof(uint8_t *) < (x)`. -/
def MUST_USE_EXTERNAL_BUFFER (cap x : Nat) : Bool :=
  decide (SIZE_OF_POINTER_TO_BYTE_ARRAY cap < x)

/-- Enumeration `St7789Opcode`. -/
inductive St7789Opcode where
  | NOP | SWRESET | SLPOUT | NORON | INVON | DISPON | CASET | RASET | RAMWR
  | MADCTL | COLMOD | RAMWRC | PORCTRL | GCTRL | VCOM | LCMCTRL | VDVVRHEN
  | VRHS | VDVS | FRCTRL2 | PWCTRL1 | PVGAMCTRL | NVGAMCTRL
  deriving DecidableEq, Repr

/-- Numeric value of each enumerator of `St7789Opcode`. -/
def St7789Opcode.toNat : St7789Opcode → Nat
  | .NOP => 0x00
  | .SWRESET => 0x01
  | .SLPOUT => 0x11
  | .NORON => 0x13
  | .INVON => 0x21
  | .DISPON => 0x29
  | .CASET => 0x2a
  | .RASET => 0x2b
  | .RAMWR => 0x2c
  | .MADCTL => 0x36
  | .COLMOD => 0x3a
  | .RAMWRC => 0x3c
  | .PORCTRL => 0xb2
  | .GCTRL => 0xb7
  | .VCOM => 0xbb
  | .LCMCTRL => 0xc0
  | .VDVVRHEN => 0xc2
  | .VRHS => 0xc3
  | .VDVS => 0xc4
  | .FRCTRL2 => 0xc6
  | .PWCTRL1 => 0xd0
  | .PVGAMCTRL => 0xe0
  | .NVGAMCTRL => 0xe1

/-- Enumeration `St7789PixelFormat`. -/
inductive St7789PixelFormat where
  | BPP12 | BPP16 | BPP18
  deriving DecidableEq, Repr

/-- Numeric value of each enumerator of `St7789PixelFormat`. -/
def St7789PixelFormat.toNat : St7789PixelFormat → Nat
  | .BPP12 => 0x03
  | .BPP16 => 0x54
  | .BPP18 => 0x55

/-- Enumeration `St7789CommandDirection`. -/
inductive St7789CommandDirection where
  | READ_7789 | WRITE_7789 | NONE_7789
  deriving DecidableEq, Repr

/-- Bytes of a pointer value as they lie in memory, least significant byte first. -/
def pointerBytes (cap p : Nat) : List Nat :=
  (List.range cap).map (fun k => (p >>> (8 * k)) % 256)

/-- Pointer value held by a sequence of bytes, least significant byte first. -/
def bytesPointer (bs : List Nat) : Nat :=
  bs.foldr (fun b acc => b % 256 + 256 * acc) 0

/-- The anonymous union of `St7789Command`: either the member `internalBuffer`
(an array of `sizeof(uint8_t *)` bytes) or the member `externalBuffer` (a pointer). -/
inductive PayloadUnion where
  | internalBuffer (bytes : List Nat)
  | externalBuffer (ptr : Nat)
  deriving DecidableEq, Repr

/-- Reading the union through its member `internalBuffer`. -/
def PayloadUnion.asInternalBuffer (cap : Nat) : PayloadUnion → List Nat
  | .internalBuffer bytes => bytes
  | .externalBuffer ptr => pointerBytes cap ptr

/-- Reading the union through its member `externalBuffer`. -/
def PayloadUnion.asExternalBuffer : PayloadUnion → Nat
  | .internalBuffer bytes => bytesPointer bytes
  | .externalBuffer ptr => ptr

/-- Tells whether the member `externalBuffer` is the one that was written. -/
def PayloadUnion.isExternal : PayloadUnion → Bool
  | .internalBuffer _ => false
  | .externalBuffer _ => true

/-- Structure `St7789Command`. -/
structure St7789Command where
  opcode : St7789Opcode
  dataLength : Nat
  dataDirection : St7789CommandDirection
  keepExternalBufferOnDelete : Bool
  payload : PayloadUnion
  deriving DecidableEq, Repr

/-! ## The machine the code runs on -/

/-- One `new` or `delete` expression evaluated by the code. -/
inductive Event where
  | newCommand
  | newArray (addr len : Nat)
  | deleteBuffer (addr : Nat)
  | deleteCommand
  | deleteTransaction (addr : Nat)
  deriving DecidableEq, Repr

/-- State of the machine around the library.
* `garbage i` is the indeterminate byte found at index `i` of the union of a
  command that `new St7789Command` has just returned;
* `fresh` is the address that the next `new uint8_t[n]` returns;
* `mem` is the byte memory outside of the command objects (caller buffers and
  arrays obtained from `new uint8_t[n]`, whose content is whatever `mem` holds);
* `events` is the trace of the `new` and `delete` expressions evaluated so far;
* `outOfBounds` is raised by a store that falls outside of the buffer that
  `message` points to. -/
structure Machine where
  garbage : Nat → Nat
  fresh : Nat
  mem : Nat → Nat
  events : List Event
  outOfBounds : Bool

/-- Reading the `uint8_t` cell of the memory at address `a`. -/
def readByte (mem : Nat → Nat) (a : Nat) : Nat := mem a % 256

/-- Value of a local variable `uint8_t *message`: the start of the member
`internalBuffer` of the command, or the start of an array of `len` bytes at `ptr`. -/
inductive Message where
  | internal
  | external (ptr len : Nat)
  deriving DecidableEq, Repr

/-- Statement `message[i] = v;` where `v` is converted to `uint8_t`. -/
def store (cap : Nat) (message : Message) (i v : Nat) (s : St7789Command × Machine) :
    St7789Command × Machine :=
  match message with
  | .internal =>
    if i < cap then
      ({ s.1 with payload := .internalBuffer ((s.1.payload.asInternalBuffer cap).set i (v % 256)) }, s.2)
    else
      (s.1, { s.2 with outOfBounds := true })
  | .external ptr len =>
    if i < len then
      (s.1, { s.2 with mem := fun a => if a = ptr + i then v % 256 else s.2.mem a })
    else
      (s.1, { s.2 with outOfBounds := true })

/-- What the data transaction of a command carries when the memory is `mem`:
`dataLength` bytes, taken from the member `internalBuffer` when the length fits
in it and from the array that the member `externalBuffer` points to otherwise. -/
def St7789Command.data (cap : Nat) (command : St7789Command) (mem : Nat → Nat) : List Nat :=
  if MUST_USE_EXTERNAL_BUFFER cap command.dataLength then
    (List.range command.dataLength).map (fun i => readByte mem (command.payload.asExternalBuffer + i))
  else
    (command.payload.asInternalBuffer cap).take command.dataLength

/-! ## St7789.hpp : private helpers -/

/-- Body of the loop of `setupMessageFromUnmanagedMemory`, `n` iterations starting at index `i`:
`message[i] = buffer[i]`. -/
def copyLoop (cap : Nat) (mem : Nat → Nat) (buffer : Nat) :
    Nat → Nat → St7789Command × Machine → St7789Command × Machine
  | 0, _, s => s
  | n + 1, i, s => copyLoop cap mem buffer n (i + 1) (store cap .internal i (readByte mem (buffer + i)) s)

/-- Method `St7789::setupMessageFromUnmanagedMemory`. -/
def setupMessageFromUnmanagedMemory (cap : Nat) (command : St7789Command) (m : Machine)
    (size buffer : Nat) : St7789Command × Machine :=
  if MUST_USE_EXTERNAL_BUFFER cap size then
    ({ command with keepExternalBufferOnDelete := true, payload := .externalBuffer buffer }, m)
  else
    copyLoop cap m.mem buffer size 0 (command, m)

/-- Method `St7789::getBufferUsingManagedBufferIfNeeded`. The expression
`new uint8_t[n]` returns the address `fresh` of the machine and the next array
will start `n` bytes further; the content of the new array is not initialised. -/
def getBufferUsingManagedBufferIfNeeded (cap : Nat) (command : St7789Command) (m : Machine) :
    Message × St7789Command × Machine :=
  if MUST_USE_EXTERNAL_BUFFER cap command.dataLength then
    (.external m.fresh command.dataLength,
     { command with keepExternalBufferOnDelete := false, payload := .externalBuffer m.fresh },
     { m with fresh := m.fresh + command.dataLength,
              events := m.events ++ [Event.newArray m.fresh command.dataLength] })
  else
    (.internal, command, m)

/-- Method `St7789::newCommand`; the union of the new command is left as the allocation found it. -/
def newCommand (cap : Nat) (m : Machine) (opcode : St7789Opcode) (dataLength : Nat)
    (dataDirection : St7789CommandDirection) (keepExternalBufferOnDelete : Bool) :
    St7789Command × Machine :=
  ({ opcode := opcode, dataLength := dataLength, dataDirection := dataDirection,
     keepExternalBufferOnDelete := keepExternalBufferOnDelete,
     payload := .internalBuffer ((List.range cap).map (fun i => m.garbage i % 256)) },
   { m with events := m.events ++ [Event.newCommand] })

/-! ## St7789.hpp : the factories

Every factory takes the state of the machine and returns the command it built
together with the new state. Arguments of type `uint8_t`, `uint16_t` and
`uint32_t` are natural numbers below `2 ^ 8`, `2 ^ 16` and `2 ^ 32`. -/

/-- Factory `St7789::nop`. -/
def nop (cap : Nat) (m : Machine) : St7789Command × Machine :=
  newCommand cap m .NOP 0 .NONE_7789 false

/-- Factory `St7789::swreset`. -/
def swreset (cap : Nat) (m : Machine) : St7789Command × Machine :=
  newCommand cap m .SWRESET 0 .NONE_7789 false

/-- Factory `St7789::slpout`. -/
def slpout (cap : Nat) (m : Machine) : St7789Command × Machine :=
  newCommand cap m .SLPOUT 0 .NONE_7789 false

/-- Factory `St7789::noron`. -/
def noron (cap : Nat) (m : Machine) : St7789Command × Machine :=
  newCommand cap m .NORON 0 .NONE_7789 false

/-- Factory `St7789::invon`. -/
def invon (cap : Nat) (m : Machine) : St7789Command × Machine :=
  newCommand cap m .INVON 0 .NONE_7789 false

/-- Factory `St7789::dispon`. -/
def dispon (cap : Nat) (m : Machine) : St7789Command × Machine :=
  newCommand cap m .DISPON 0 .NONE_7789 false

/-- Factory `St7789::caset`. -/
def caset (cap : Nat) (m : Machine) (xs xe : Nat) : St7789Command × Machine :=
  let (command, m) := newCommand cap m .CASET 4 .WRITE_7789 false
  let (message, command, m) := getBufferUsingManagedBufferIfNeeded cap command m
  let s := (command, m)
  let s := store cap message 0 ((xs >>> 8) &&& 0xff) s
  let s := store cap message 1 (xs &&& 0xff) s
  let s := store cap message 2 ((xe >>> 8) &&& 0xff) s
  store cap message 3 (xe &&& 0xff) s

/-- Factory `St7789::raset`. -/
def raset (cap : Nat) (m : Machine) (ys ye : Nat) : St7789Command × Machine :=
  let (command, m) := newCommand cap m .RASET 4 .WRITE_7789 false
  let (message, command, m) := getBufferUsingManagedBufferIfNeeded cap command m
  let s := (command, m)
  let s := store cap message 0 ((ys >>> 8) &&& 0xff) s
  let s := store cap message 1 (ys &&& 0xff) s
  let s := store cap message 2 ((ye >>> 8) &&& 0xff) s
  store cap message 3 (ye &&& 0xff) s

/-- Factory `St7789::ramwr`. -/
def ramwr (cap : Nat) (m : Machine) (size buffer : Nat) : St7789Command × Machine :=
  let (command, m) := newCommand cap m .RAMWR size .WRITE_7789 false
  setupMessageFromUnmanagedMemory cap command m size buffer

/-- Factory `St7789::madctl`. -/
def madctl (cap : Nat) (m : Machine) (mode : Nat) : St7789Command × Machine :=
  let (command, m) := newCommand cap m .MADCTL 1 .WRITE_7789 false
  let (message, command, m) := getBufferUsingManagedBufferIfNeeded cap command m
  let s := (command, m)
  let s := store cap message 0 (mode &&& 0xff) s
  let s := store cap message 1 (0) s
  let s := store cap message 2 (0) s
  store cap message 3 (0) s

/-- Factory `St7789::colmod`. -/
def colmod (cap : Nat) (m : Machine) (f : St7789PixelFormat) : St7789Command × Machine :=
  let (command, m) := newCommand cap m .COLMOD 1 .WRITE_7789 false
  let (message, command, m) := getBufferUsingManagedBufferIfNeeded cap command m
  let s := (command, m)
  let s := store cap message 0 (f.toNat &&& 0xff) s
  let s := store cap message 1 (0) s
  let s := store cap message 2 (0) s
  store cap message 3 (0) s

/-- Factory `St7789::ramwrc`. -/
def ramwrc (cap : Nat) (m : Machine) (size buffer : Nat) : St7789Command × Machine :=
  let (command, m) := newCommand cap m .RAMWRC size .WRITE_7789 false
  setupMessageFromUnmanagedMemory cap command m size buffer

/-- Factory `St7789::porctrl`. -/
def porctrl (cap : Nat) (m : Machine) (backPorch frontPorch : Nat) (enable : Bool) (backPorchIdle frontPorchIdle backPorchPartial frontPorchPartial : Nat) : St7789Command × Machine :=
  let (command, m) := newCommand cap m .PORCTRL 5 .WRITE_7789 false
  let (message, command, m) := getBufferUsingManagedBufferIfNeeded cap command m
  let s := (command, m)
  let s := store cap message 0 (backPorch &&& 0xff) s
  let s := store cap message 1 (frontPorch &&& 0xff) s
  let s := store cap message 2 (if enable then 0x01 else 0x00) s
  let s := store cap message 4 (((backPorchIdle <<< 4) &&& 0xf0) ||| (frontPorchIdle &&& 0x0f)) s
  store cap message 3 (((backPorchPartial <<< 4) &&& 0xf0) ||| (backPorchPartial &&& 0x0f)) s

/-- Factory `St7789::gctrl`. -/
def gctrl (cap : Nat) (m : Machine) (vghSetting vglSetting : Nat) : St7789Command × Machine :=
  let (command, m) := newCommand cap m .GCTRL 1 .WRITE_7789 false
  let (message, command, m) := getBufferUsingManagedBufferIfNeeded cap command m
  let s := (command, m)
  let s := store cap message 0 (((vghSetting <<< 4) &&& 0xf0) ||| (vglSetting &&& 0x0f)) s
  let s := store cap message 1 (0) s
  let s := store cap message 2 (0) s
  store cap message 3 (0) s

/-- Factory `St7789::vcom`. -/
def vcom (cap : Nat) (m : Machine) (vcomSetting : Nat) : St7789Command × Machine :=
  let (command, m) := newCommand cap m .VCOM 1 .WRITE_7789 false
  let (message, command, m) := getBufferUsingManagedBufferIfNeeded cap command m
  let s := (command, m)
  let s := store cap message 0 (vcomSetting &&& 0xff) s
  let s := store cap message 1 (0) s
  let s := store cap message 2 (0) s
  store cap message 3 (0) s

/-- Factory `St7789::lcmctrl`. -/
def lcmctrl (cap : Nat) (m : Machine) (lcmSetting : Nat) : St7789Command × Machine :=
  let (command, m) := newCommand cap m .LCMCTRL 1 .WRITE_7789 false
  let (message, command, m) := getBufferUsingManagedBufferIfNeeded cap command m
  let s := (command, m)
  let s := store cap message 0 (lcmSetting &&& 0xff) s
  let s := store cap message 1 (0) s
  let s := store cap message 2 (0) s
  store cap message 3 (0) s

/-- Factory `St7789::vdvvrhen`. -/
def vdvvrhen (cap : Nat) (m : Machine) (enable : Bool) : St7789Command × Machine :=
  let (command, m) := newCommand cap m .VDVVRHEN 2 .WRITE_7789 false
  let (message, command, m) := getBufferUsingManagedBufferIfNeeded cap command m
  let s := (command, m)
  let s := store cap message 0 (if enable then 0x01 else 0x00) s
  let s := store cap message 1 (0xff) s
  let s := store cap message 2 (0) s
  store cap message 3 (0) s

/-- Factory `St7789::vrhs`. -/
def vrhs (cap : Nat) (m : Machine) (vrhSetting : Nat) : St7789Command × Machine :=
  let (command, m) := newCommand cap m .VRHS 1 .WRITE_7789 false
  let (message, command, m) := getBufferUsingManagedBufferIfNeeded cap command m
  let s := (command, m)
  let s := store cap message 0 (vrhSetting &&& 0xff) s
  let s := store cap message 1 (0) s
  let s := store cap message 2 (0) s
  store cap message 3 (0) s

/-- Factory `St7789::vdvs`. -/
def vdvs (cap : Nat) (m : Machine) (vdvSetting : Nat) : St7789Command × Machine :=
  let (command, m) := newCommand cap m .VDVS 1 .WRITE_7789 false
  let (message, command, m) := getBufferUsingManagedBufferIfNeeded cap command m
  let s := (command, m)
  let s := store cap message 0 (vdvSetting &&& 0xff) s
  let s := store cap message 1 (0) s
  let s := store cap message 2 (0) s
  store cap message 3 (0) s

/-- Factory `St7789::frctrl2`. -/
def frctrl2 (cap : Nat) (m : Machine) (nla rtna : Nat) : St7789Command × Machine :=
  let (command, m) := newCommand cap m .FRCTRL2 1 .WRITE_7789 false
  let (message, command, m) := getBufferUsingManagedBufferIfNeeded cap command m
  let s := (command, m)
  let s := store cap message 0 (((nla <<< 5) &&& 0xe0) ||| (rtna &&& 0x1f)) s
  let s := store cap message 1 (0) s
  let s := store cap message 2 (0) s
  store cap message 3 (0) s

/-- Factory `St7789::pwctrl1`. -/
def pwctrl1 (cap : Nat) (m : Machine) (avdd avcl vds : Nat) : St7789Command × Machine :=
  let (command, m) := newCommand cap m .PWCTRL1 2 .WRITE_7789 false
  let (message, command, m) := getBufferUsingManagedBufferIfNeeded cap command m
  let s := (command, m)
  let s := store cap message 0 (0xa4) s
  let s := store cap message 1 (((avdd <<< 6) &&& 0xc0) ||| ((avcl <<< 4) &&& 0x30) ||| (vds &&& 0x3)) s
  let s := store cap message 2 (0) s
  store cap message 3 (0) s

/-- Factory `St7789::pvgamctrl`. -/
def pvgamctrl (cap : Nat) (m : Machine) (v0 v1 v2 v4 v6 v13 v20 v27 v36 v43 v50 v57 v59 v61 v62 v63 j0 j1 : Nat) : St7789Command × Machine :=
  let (command, m) := newCommand cap m .PVGAMCTRL 14 .WRITE_7789 false
  let (message, command, m) := getBufferUsingManagedBufferIfNeeded cap command m
  let s := (command, m)
  let s := store cap message 0 (((v63 &&& 0x0f) <<< 4) ||| (v0 &&& 0x0f)) s
  let s := store cap message 1 (v1 &&& 0x3f) s
  let s := store cap message 2 (v2 &&& 0x3f) s
  let s := store cap message 3 (v4 &&& 0x1f) s
  let s := store cap message 4 (v6 &&& 0x1f) s
  let s := store cap message 5 (((j0 &&& 0x03) <<< 4) ||| (v13 &&& 0x0f)) s
  let s := store cap message 6 (v20 &&& 0x7f) s
  let s := store cap message 7 (((v36 &&& 0x07) <<< 4) ||| (v27 &&& 0x07)) s
  let s := store cap message 8 (v43 &&& 0x7f) s
  let s := store cap message 9 (((j1 &&& 0x03) <<< 4) ||| (v50 &&& 0x0f)) s
  let s := store cap message 10 (v57 &&& 0x1f) s
  let s := store cap message 11 (v59 &&& 0x1f) s
  let s := store cap message 12 (v61 &&& 0x3f) s
  store cap message 13 (v62 &&& 0x3f) s

/-- Factory `St7789::nvgamctrl`. -/
def nvgamctrl (cap : Nat) (m : Machine) (v0 v1 v2 v4 v6 v13 v20 v27 v36 v43 v50 v57 v59 v61 v62 v63 j0 j1 : Nat) : St7789Command × Machine :=
  let (command, m) := newCommand cap m .NVGAMCTRL 14 .WRITE_7789 false
  let (message, command, m) := getBufferUsingManagedBufferIfNeeded cap command m
  let s := (command, m)
  let s := store cap message 0 (((v63 &&& 0x0f) <<< 4) ||| (v0 &&& 0x0f)) s
  let s := store cap message 1 (v1 &&& 0x3f) s
  let s := store cap message 2 (v2 &&& 0x3f) s
  let s := store cap message 3 (v4 &&& 0x1f) s
  let s := store cap message 4 (v6 &&& 0x1f) s
  let s := store cap message 5 (((j0 &&& 0x03) <<< 4) ||| (v13 &&& 0x0f)) s
  let s := store cap message 6 (v20 &&& 0x7f) s
  let s := store cap message 7 (((v36 &&& 0x07) <<< 4) ||| (v27 &&& 0x07)) s
  let s := store cap message 8 (v43 &&& 0x7f) s
  let s := store cap message 9 (((j1 &&& 0x03) <<< 4) ||| (v50 &&& 0x0f)) s
  let s := store cap message 10 (v57 &&& 0x1f) s
  let s := store cap message 11 (v59 &&& 0x1f) s
  let s := store cap message 12 (v61 &&& 0x3f) s
  store cap message 13 (v62 &&& 0x3f) s

/-! ## St7789Job.hpp -/

/-- Class `St7789Job`: three pointers, each of which may be null (`none`). A
transaction is known by its address only. -/
structure St7789Job where
  command : Option St7789Command
  transactionOfCommand : Option Nat
  transactionOfData : Option Nat
  deriving DecidableEq, Repr

/-- The `delete` expressions that `St7789Job::~St7789Job` evaluates, in order. -/
def St7789Job.releases (cap : Nat) (job : St7789Job) : List Event :=
  (match job.command with
   | some command =>
     (if MUST_USE_EXTERNAL_BUFFER cap command.dataLength && !command.keepExternalBufferOnDelete then
        [Event.deleteBuffer command.payload.asExternalBuffer]
      else []) ++ [Event.deleteCommand]
   | none => []) ++
  (match job.transactionOfCommand with
   | some t => [Event.deleteTransaction t]
   | none => []) ++
  (match job.transactionOfData with
   | some t => [Event.deleteTransaction t]
   | none => [])

/-- Destructor `St7789Job::~St7789Job` as a step of the machine. -/
def St7789Job.destructor (cap : Nat) (job : St7789Job) (m : Machine) : Machine :=
  { m with events := m.events ++ job.releases cap }

/-- Tells whether an event is the release of a payload buffer. -/
def Event.isDeleteBuffer : Event → Bool
  | .deleteBuffer _ => true
  | _ => false

/-- Tells whether an event is the allocation of a payload buffer. -/
def Event.isNewArray : Event → Bool
  | .newArray _ _ => true
  | _ => false

/-! ## Calls of the factories -/

/-- A call of one of the factories of `St7789`, with its arguments. -/
inductive Call where
  | nop | swreset | slpout | noron | invon | dispon
  | caset (xs xe : Nat)
  | raset (ys ye : Nat)
  | ramwr (size buffer : Nat)
  | madctl (mode : Nat)
  | colmod (f : St7789PixelFormat)
  | ramwrc (size buffer : Nat)
  | porctrl (backPorch frontPorch : Nat) (enable : Bool)
      (backPorchIdle frontPorchIdle backPorchPartial frontPorchPartial : Nat)
  | gctrl (vghSetting vglSetting : Nat)
  | vcom (vcomSetting : Nat)
  | lcmctrl (lcmSetting : Nat)
  | vdvvrhen (enable : Bool)
  | vrhs (vrhSetting : Nat)
  | vdvs (vdvSetting : Nat)
  | frctrl2 (nla rtna : Nat)
  | pwctrl1 (avdd avcl vds : Nat)
  | pvgamctrl (v0 v1 v2 v4 v6 v13 v20 v27 v36 v43 v50 v57 v59 v61 v62 v63 j0 j1 : Nat)
  | nvgamctrl (v0 v1 v2 v4 v6 v13 v20 v27 v36 v43 v50 v57 v59 v61 v62 v63 j0 j1 : Nat)
  deriving DecidableEq, Repr

/-- Running a call: the factory applied to its arguments. -/
def Call.run (cap : Nat) (m : Machine) : Call → St7789Command × Machine
  | .nop => St7789.nop cap m
  | .swreset => St7789.swreset cap m
  | .slpout => St7789.slpout cap m
  | .noron => St7789.noron cap m
  | .invon => St7789.invon cap m
  | .dispon => St7789.dispon cap m
  | .caset xs xe => St7789.caset cap m xs xe
  | .raset ys ye => St7789.raset cap m ys ye
  | .ramwr size buffer => St7789.ramwr cap m size buffer
  | .madctl mode => St7789.madctl cap m mode
  | .colmod f => St7789.colmod cap m f
  | .ramwrc size buffer => St7789.ramwrc cap m size buffer
  | .porctrl a b e c d f g => St7789.porctrl cap m a b e c d f g
  | .gctrl a b => St7789.gctrl cap m a b
  | .vcom a => St7789.vcom cap m a
  | .lcmctrl a => St7789.lcmctrl cap m a
  | .vdvvrhen e => St7789.vdvvrhen cap m e
  | .vrhs a => St7789.vrhs cap m a
  | .vdvs a => St7789.vdvs cap m a
  | .frctrl2 a b => St7789.frctrl2 cap m a b
  | .pwctrl1 a b c => St7789.pwctrl1 cap m a b c
  | .pvgamctrl v0 v1 v2 v4 v6 v13 v20 v27 v36 v43 v50 v57 v59 v61 v62 v63 j0 j1 =>
    St7789.pvgamctrl cap m v0 v1 v2 v4 v6 v13 v20 v27 v36 v43 v50 v57 v59 v61 v62 v63 j0 j1
  | .nvgamctrl v0 v1 v2 v4 v6 v13 v20 v27 v36 v43 v50 v57 v59 v61 v62 v63 j0 j1 =>
    St7789.nvgamctrl cap m v0 v1 v2 v4 v6 v13 v20 v27 v36 v43 v50 v57 v59 v61 v62 v63 j0 j1

/-- Tells whether the call is one of the two bulk writes, whose payload comes from the caller. -/
def Call.isBulkWrite : Call → Bool
  | .ramwr _ _ => true
  | .ramwrc _ _ => true
  | _ => false

/-! ## Gamma settings -/

/-- The eighteen arguments of `pvgamctrl` and `nvgamctrl`. -/
structure GammaSettings where
  v0 : Nat
  v1 : Nat
  v2 : Nat
  v4 : Nat
  v6 : Nat
  v13 : Nat
  v20 : Nat
  v27 : Nat
  v36 : Nat
  v43 : Nat
  v50 : Nat
  v57 : Nat
  v59 : Nat
  v61 : Nat
  v62 : Nat
  v63 : Nat
  j0 : Nat
  j1 : Nat
  deriving DecidableEq, Repr

/-- Bit widths that the documentation of `pvgamctrl` gives to its parameters
(`v0 [3:0]`, `v1 [5:0]`, ..., `j1 [1:0]`). -/
def GammaSettings.inRange (g : GammaSettings) : Prop :=
  g.v0 < 2 ^ 4 ∧ g.v1 < 2 ^ 6 ∧ g.v2 < 2 ^ 6 ∧ g.v4 < 2 ^ 5 ∧ g.v6 < 2 ^ 5 ∧ g.v13 < 2 ^ 4 ∧
  g.v20 < 2 ^ 7 ∧ g.v27 < 2 ^ 3 ∧ g.v36 < 2 ^ 3 ∧ g.v43 < 2 ^ 7 ∧ g.v50 < 2 ^ 4 ∧
  g.v57 < 2 ^ 5 ∧ g.v59 < 2 ^ 5 ∧ g.v61 < 2 ^ 6 ∧ g.v62 < 2 ^ 6 ∧ g.v63 < 2 ^ 4 ∧
  g.j0 < 2 ^ 2 ∧ g.j1 < 2 ^ 2

/-- Call of `pvgamctrl` on a tuple of settings. -/
def GammaSettings.pvgamctrl (cap : Nat) (m : Machine) (g : GammaSettings) :
    St7789Command × Machine :=
  St7789.pvgamctrl cap m g.v0 g.v1 g.v2 g.v4 g.v6 g.v13 g.v20 g.v27 g.v36 g.v43 g.v50 g.v57
    g.v59 g.v61 g.v62 g.v63 g.j0 g.j1

/-- Call of `nvgamctrl` on a tuple of settings. -/
def GammaSettings.nvgamctrl (cap : Nat) (m : Machine) (g : GammaSettings) :
    St7789Command × Machine :=
  St7789.nvgamctrl cap m g.v0 g.v1 g.v2 g.v4 g.v6 g.v13 g.v20 g.v27 g.v36 g.v43 g.v50 g.v57
    g.v59 g.v61 g.v62 g.v63 g.j0 g.j1

/-- The data that the transaction of a built command carries, read in the memory
as the factory left it. -/
def builtData (cap : Nat) (r : St7789Command × Machine) : List Nat :=
  r.1.data cap r.2.mem

/-- Reading the gamma settings back from the fourteen payload bytes, field by
field, as the register layout is documented: `v0 = b0 & 0x0F`, `v63 = b0 >> 4`, `v1 = b1`, `v2 = b2`,
`v4 = b3`, `v6 = b4`, `v13 = b5 & 0x0F`, `j0 = (b5 >> 4) & 3`, `v20 = b6`,
`v27 = b7 & 7`, `v36 = (b7 >> 4) & 7`, `v43 = b8`, `v50 = b9 & 0x0F`,
`j1 = (b9 >> 4) & 3`, `v57 = b10`, `v59 = b11`, `v61 = b12`, `v62 = b13`. -/
def extractGamma : List Nat → Option GammaSettings
  | [b0, b1, b2, b3, b4, b5, b6, b7, b8, b9, b10, b11, b12, b13] =>
    some { v0 := b0 &&& 0x0F, v63 := b0 >>> 4, v1 := b1, v2 := b2, v4 := b3, v6 := b4,
           v13 := b5 &&& 0x0F, j0 := (b5 >>> 4) &&& 3, v20 := b6, v27 := b7 &&& 7,
           v36 := (b7 >>> 4) &&& 7, v43 := b8, v50 := b9 &&& 0x0F, j1 := (b9 >>> 4) &&& 3,
           v57 := b10, v59 := b11, v61 := b12, v62 := b13 }
  | _ => none

/-- Gamma settings with every field reduced to its documented bit width. -/
def GammaSettings.masked (g : GammaSettings) : GammaSettings :=
  { v0 := g.v0 &&& 0x0F, v1 := g.v1 &&& 0x3F, v2 := g.v2 &&& 0x3F, v4 := g.v4 &&& 0x1F,
    v6 := g.v6 &&& 0x1F, v13 := g.v13 &&& 0x0F, v20 := g.v20 &&& 0x7F, v27 := g.v27 &&& 0x07,
    v36 := g.v36 &&& 0x07, v43 := g.v43 &&& 0x7F, v50 := g.v50 &&& 0x0F, v57 := g.v57 &&& 0x1F,
    v59 := g.v59 &&& 0x1F, v61 := g.v61 &&& 0x3F, v62 := g.v62 &&& 0x3F, v63 := g.v63 &&& 0x0F,
    j0 := g.j0 &&& 0x03, j1 := g.j1 &&& 0x03 }

/-- Bits of each of the fourteen gamma payload bytes that belong to a documented field. -/
def gammaFieldBits : List Nat :=
  [0xFF, 0x3F, 0x3F, 0x1F, 0x1F, 0x3F, 0x7F, 0x77, 0x7F, 0x3F, 0x1F, 0x1F, 0x3F, 0x3F]

/-! ## Concrete machines used to evaluate the code -/

/-- A machine whose fresh allocations are zero filled. -/
def cleanMachine : Machine :=
  { garbage := fun _ => 0, fresh := 4096, mem := fun _ => 0, events := [], outOfBounds := false }

/-- A machine whose fresh allocations hold the byte `0xAA` everywhere. -/
def dirtyMachine : Machine :=
  { garbage := fun _ => 0xAA, fresh := 4096, mem := fun _ => 0xAA, events := [], outOfBounds := false }

/-- Gamma settings with every field at its largest documented value. -/
def gammaSample : GammaSettings :=
  { v0 := 15, v1 := 63, v2 := 63, v4 := 31, v6 := 31, v13 := 15, v20 := 127, v27 := 7,
    v36 := 7, v43 := 127, v50 := 15, v57 := 31, v59 := 31, v61 := 63, v62 := 63, v63 := 15,
    j0 := 3, j1 := 3 }

/-- Gamma settings of which every field exceeds its documented width. -/
def gammaWide : GammaSettings :=
  { v0 := 0xFF, v1 := 0xFF, v2 := 0xFF, v4 := 0xFF, v6 := 0xFF, v13 := 0xFF, v20 := 0xFF,
    v27 := 0xFF, v36 := 0xFF, v43 := 0xFF, v50 := 0xFF, v57 := 0xFF, v59 := 0xFF, v61 := 0xFF,
    v62 := 0xFF, v63 := 0xFF, j0 := 0xFF, j1 := 0xFF }

/-- Position of the factory of a call in `St7789.hpp`; it tells the factories apart. -/
def Call.index : Call → Nat
  | .nop => 0
  | .swreset => 1
  | .slpout => 2
  | .noron => 3
  | .invon => 4
  | .dispon => 5
  | .caset _ _ => 6
  | .raset _ _ => 7
  | .ramwr _ _ => 8
  | .madctl _ => 9
  | .colmod _ => 10
  | .ramwrc _ _ => 11
  | .porctrl _ _ _ _ _ _ _ => 12
  | .gctrl _ _ => 13
  | .vcom _ => 14
  | .lcmctrl _ => 15
  | .vdvvrhen _ => 16
  | .vrhs _ => 17
  | .vdvs _ => 18
  | .frctrl2 _ _ => 19
  | .pwctrl1 _ _ _ => 20
  | .pvgamctrl _ _ _ _ _ _ _ _ _ _ _ _ _ _ _ _ _ _ => 21
  | .nvgamctrl _ _ _ _ _ _ _ _ _ _ _ _ _ _ _ _ _ _ => 22

/-- Opcode and payload length of each operation, as the specification lists
them: a fixed pair for every factory but the two bulk writes, whose length is
the argument `size`. -/
def Call.opcodeAndLength : Call → Nat × Nat
  | .nop => (0x00, 0)
  | .swreset => (0x01, 0)
  | .slpout => (0x11, 0)
  | .noron => (0x13, 0)
  | .invon => (0x21, 0)
  | .dispon => (0x29, 0)
  | .caset _ _ => (0x2A, 4)
  | .raset _ _ => (0x2B, 4)
  | .ramwr size _ => (0x2C, size)
  | .madctl _ => (0x36, 1)
  | .colmod _ => (0x3A, 1)
  | .ramwrc size _ => (0x3C, size)
  | .porctrl _ _ _ _ _ _ _ => (0xB2, 5)
  | .gctrl _ _ => (0xB7, 1)
  | .vcom _ => (0xBB, 1)
  | .lcmctrl _ => (0xC0, 1)
  | .vdvvrhen _ => (0xC2, 2)
  | .vrhs _ => (0xC3, 1)
  | .vdvs _ => (0xC4, 1)
  | .frctrl2 _ _ => (0xC6, 1)
  | .pwctrl1 _ _ _ => (0xD0, 2)
  | .pvgamctrl _ _ _ _ _ _ _ _ _ _ _ _ _ _ _ _ _ _ => (0xE0, 14)
  | .nvgamctrl _ _ _ _ _ _ _ _ _ _ _ _ _ _ _ _ _ _ => (0xE1, 14)

/-- A command value that no factory builds: inline length, flag false, and a
union read as a pointer. -/
def strayCommand : St7789Command :=
  { opcode := .RAMWR, dataLength := 4, dataDirection := .WRITE_7789,
    keepExternalBufferOnDelete := false, payload := .externalBuffer 0xDEADBEEF }

/-- Addresses of the caller memory that the payload of a call is read from: the
`size` bytes at `buffer` for the two bulk writes, none for the other factories. -/
def Call.reads : Call → List Nat
  | .ramwr size buffer => (List.range size).map (fun i => buffer + i)
  | .ramwrc size buffer => (List.range size).map (fun i => buffer + i)
  | _ => []

/-! # Theorems -/

/-! ## Arithmetic of the bit operations -/

theorem and_mask (x k : Nat) : x &&& (2 ^ k - 1) = x % 2 ^ k :=
  Nat.and_pow_two_sub_one_eq_mod x k

theorem shl_and_shl (x n k : Nat) : (x <<< k) &&& (n <<< k) = (x &&& n) <<< k := by
  apply Nat.eq_of_testBit_eq
  intro i
  simp only [Nat.testBit_and, Nat.testBit_shiftLeft]
  by_cases h : k ≤ i <;> simp [h]

theorem or_eq_add (a b k : Nat) (ha : a % 2 ^ k = 0) (hb : b < 2 ^ k) : a ||| b = a + b := by
  have h : a = 2 ^ k * (a / 2 ^ k) := by
    have := Nat.div_add_mod a (2 ^ k)
    omega
  rw [h, ← Nat.mul_add_lt_is_or hb]

theorem and_255 (x : Nat) : x &&& 255 = x % 256 := and_mask x 8

theorem and_127 (x : Nat) : x &&& 127 = x % 128 := and_mask x 7

theorem and_63 (x : Nat) : x &&& 63 = x % 64 := and_mask x 6

theorem and_31 (x : Nat) : x &&& 31 = x % 32 := and_mask x 5

theorem and_15 (x : Nat) : x &&& 15 = x % 16 := and_mask x 4

theorem and_7 (x : Nat) : x &&& 7 = x % 8 := and_mask x 3

theorem and_3 (x : Nat) : x &&& 3 = x % 4 := and_mask x 2

theorem shl4_and_f0 (x : Nat) : (x <<< 4) &&& 0xf0 = (x % 16) * 16 := by
  rw [show (0xf0 : Nat) = 15 <<< 4 from rfl, shl_and_shl, and_15, Nat.shiftLeft_eq]

theorem shl4_and_30 (x : Nat) : (x <<< 4) &&& 0x30 = (x % 4) * 16 := by
  rw [show (0x30 : Nat) = 3 <<< 4 from rfl, shl_and_shl, and_3, Nat.shiftLeft_eq]

theorem shl6_and_c0 (x : Nat) : (x <<< 6) &&& 0xc0 = (x % 4) * 64 := by
  rw [show (0xc0 : Nat) = 3 <<< 6 from rfl, shl_and_shl, and_3, Nat.shiftLeft_eq]

theorem shl5_and_e0 (x : Nat) : (x <<< 5) &&& 0xe0 = (x % 8) * 32 := by
  rw [show (0xe0 : Nat) = 7 <<< 5 from rfl, shl_and_shl, and_7, Nat.shiftLeft_eq]

/-- Recomposition of a 16 bit value from its two bytes. -/
theorem bytes_recompose (x : Nat) : ((x >>> 8) <<< 8 ||| (x &&& 0xFF)) = x := by
  rw [and_255, Nat.shiftRight_eq_div_pow, Nat.shiftLeft_eq,
    or_eq_add _ _ 8 (by omega) (by omega)]
  omega

/-- The byte written by `pwctrl1` at index 1, in arithmetic form. -/
theorem pwctrl1_byte (avdd avcl vds : Nat) :
    ((avdd <<< 6) &&& 0xc0) ||| ((avcl <<< 4) &&& 0x30) ||| (vds &&& 0x3)
      = (avdd % 4) * 64 + (avcl % 4) * 16 + vds % 4 := by
  rw [shl6_and_c0, shl4_and_30, and_3,
    or_eq_add (avdd % 4 * 64) (avcl % 4 * 16) 6 (by omega) (by omega),
    or_eq_add _ _ 4 (by omega) (by omega)]

/-- The byte that the register map of `pwctrl1` asks for, in arithmetic form. -/
theorem pwctrl1_layout (avdd avcl vds : Nat) :
    ((avdd &&& 3) <<< 6) ||| ((avcl &&& 3) <<< 4) ||| (vds &&& 3)
      = (avdd % 4) * 64 + (avcl % 4) * 16 + vds % 4 := by
  rw [and_3, and_3, and_3, Nat.shiftLeft_eq, Nat.shiftLeft_eq,
    or_eq_add (avdd % 4 * 2 ^ 6) (avcl % 4 * 2 ^ 4) 6 (by omega) (by omega),
    or_eq_add _ _ 4 (by omega) (by omega)]

/-! ## What `store` and the private helpers leave unchanged -/

@[simp] theorem store_opcode (cap : Nat) (msg : Message) (i v : Nat) (s : St7789Command × Machine) :
    (store cap msg i v s).1.opcode = s.1.opcode := by
  cases msg <;> (simp only [store]; split <;> rfl)

@[simp] theorem store_dataLength (cap : Nat) (msg : Message) (i v : Nat)
    (s : St7789Command × Machine) : (store cap msg i v s).1.dataLength = s.1.dataLength := by
  cases msg <;> (simp only [store]; split <;> rfl)

@[simp] theorem store_dataDirection (cap : Nat) (msg : Message) (i v : Nat)
    (s : St7789Command × Machine) : (store cap msg i v s).1.dataDirection = s.1.dataDirection := by
  cases msg <;> (simp only [store]; split <;> rfl)

@[simp] theorem store_keep (cap : Nat) (msg : Message) (i v : Nat) (s : St7789Command × Machine) :
    (store cap msg i v s).1.keepExternalBufferOnDelete = s.1.keepExternalBufferOnDelete := by
  cases msg <;> (simp only [store]; split <;> rfl)

@[simp] theorem store_events (cap : Nat) (msg : Message) (i v : Nat) (s : St7789Command × Machine) :
    (store cap msg i v s).2.events = s.2.events := by
  cases msg <;> (simp only [store]; split <;> rfl)

@[simp] theorem store_fresh (cap : Nat) (msg : Message) (i v : Nat) (s : St7789Command × Machine) :
    (store cap msg i v s).2.fresh = s.2.fresh := by
  cases msg <;> (simp only [store]; split <;> rfl)

@[simp] theorem store_external_command (cap ptr len i v : Nat) (s : St7789Command × Machine) :
    (store cap (.external ptr len) i v s).1 = s.1 := by
  simp only [store]; split <;> rfl

theorem store_internal_isExternal (cap i v : Nat) (s : St7789Command × Machine)
    (h : s.1.payload.isExternal = false) :
    (store cap .internal i v s).1.payload.isExternal = false := by
  simp only [store]; split
  · rfl
  · exact h

@[simp] theorem store_internal_isExternal_eq (cap i v : Nat) (s : St7789Command × Machine) :
    (store cap .internal i v s).1.payload.isExternal
      = (!decide (i < cap) && s.1.payload.isExternal) := by
  simp only [store]; split <;> simp [PayloadUnion.isExternal, *]

@[simp] theorem isExternal_internalBuffer (bs : List Nat) :
    (PayloadUnion.internalBuffer bs).isExternal = false := rfl

@[simp] theorem isExternal_externalBuffer (p : Nat) :
    (PayloadUnion.externalBuffer p).isExternal = true := rfl

@[simp] theorem store_internal_mem (cap i v : Nat) (s : St7789Command × Machine) :
    (store cap .internal i v s).2.mem = s.2.mem := by
  simp only [store]; split <;> rfl

@[simp] theorem getBuffer_opcode (cap : Nat) (c : St7789Command) (m : Machine) :
    (getBufferUsingManagedBufferIfNeeded cap c m).2.1.opcode = c.opcode := by
  simp only [getBufferUsingManagedBufferIfNeeded]; split <;> rfl

@[simp] theorem getBuffer_dataLength (cap : Nat) (c : St7789Command) (m : Machine) :
    (getBufferUsingManagedBufferIfNeeded cap c m).2.1.dataLength = c.dataLength := by
  simp only [getBufferUsingManagedBufferIfNeeded]; split <;> rfl

@[simp] theorem getBuffer_dataDirection (cap : Nat) (c : St7789Command) (m : Machine) :
    (getBufferUsingManagedBufferIfNeeded cap c m).2.1.dataDirection = c.dataDirection := by
  simp only [getBufferUsingManagedBufferIfNeeded]; split <;> rfl

theorem getBuffer_external (cap : Nat) (c : St7789Command) (m : Machine) (h : cap < c.dataLength) :
    getBufferUsingManagedBufferIfNeeded cap c m
      = (.external m.fresh c.dataLength,
         { c with keepExternalBufferOnDelete := false, payload := .externalBuffer m.fresh },
         { m with fresh := m.fresh + c.dataLength,
                  events := m.events ++ [Event.newArray m.fresh c.dataLength] }) := by
  simp [getBufferUsingManagedBufferIfNeeded, MUST_USE_EXTERNAL_BUFFER,
    SIZE_OF_POINTER_TO_BYTE_ARRAY, h]

theorem getBuffer_internal (cap : Nat) (c : St7789Command) (m : Machine) (h : c.dataLength ≤ cap) :
    getBufferUsingManagedBufferIfNeeded cap c m = (.internal, c, m) := by
  simp [getBufferUsingManagedBufferIfNeeded, MUST_USE_EXTERNAL_BUFFER,
    SIZE_OF_POINTER_TO_BYTE_ARRAY, Nat.not_lt.mpr h]

/-! ## C1 : caset -/

/-- C1: for a pointer size of 4 or 8 and 16 bit bounds `xs` and `xe`, `caset`
returns a command of opcode `0x2A`, length 4, direction write, stored in the
internal buffer, whose four payload bytes are the big-endian bytes of `xs` and
`xe`; the pairs of bytes recompose to `xs` and `xe`, and `0x1234`, `0x5678`
give `[0x12, 0x34, 0x56, 0x78]`. -/
theorem caset_payload (cap : Nat) (hcap : cap = 4 ∨ cap = 8) (m : Machine) (xs xe : Nat)
    (hxs : xs < 2 ^ 16) (hxe : xe < 2 ^ 16) :
    (caset cap m xs xe).1.opcode = .CASET ∧ St7789Opcode.CASET.toNat = 0x2A ∧
    (caset cap m xs xe).1.dataLength = 4 ∧
    (caset cap m xs xe).1.dataDirection = .WRITE_7789 ∧
    (caset cap m xs xe).1.payload.isExternal = false ∧
    (∃ rest, (caset cap m xs xe).1.payload
        = .internalBuffer ([xs >>> 8, xs &&& 0xFF, xe >>> 8, xe &&& 0xFF] ++ rest)) ∧
    (∀ mem, (caset cap m xs xe).1.data cap mem = [xs >>> 8, xs &&& 0xFF, xe >>> 8, xe &&& 0xFF]) ∧
    ((xs >>> 8) <<< 8 ||| (xs &&& 0xFF)) = xs ∧ ((xe >>> 8) <<< 8 ||| (xe &&& 0xFF)) = xe ∧
    (∀ mem, (caset cap m 0x1234 0x5678).1.data cap mem = [0x12, 0x34, 0x56, 0x78]) := by
  have h1 : (xs >>> 8 &&& 255) % 256 = xs >>> 8 := by
    rw [and_255, Nat.shiftRight_eq_div_pow]; omega
  have h2 : (xe >>> 8 &&& 255) % 256 = xe >>> 8 := by
    rw [and_255, Nat.shiftRight_eq_div_pow]; omega
  have h3 : (xs &&& 255) % 256 = xs &&& 255 := by rw [and_255]; omega
  have h4 : (xe &&& 255) % 256 = xe &&& 255 := by rw [and_255]; omega
  refine ⟨?_, rfl, ?_, ?_, ?_, ?_, ?_, bytes_recompose xs, bytes_recompose xe, ?_⟩ <;>
    rcases hcap with rfl | rfl <;>
    simp [caset, newCommand, getBufferUsingManagedBufferIfNeeded, store, St7789Command.data,
      MUST_USE_EXTERNAL_BUFFER, SIZE_OF_POINTER_TO_BYTE_ARRAY, PayloadUnion.asInternalBuffer,
      PayloadUnion.isExternal, List.range, List.range.loop, h1, h2, h3, h4] <;>
    decide

/-- Witness of `caset_payload` on a 32 bit target. -/
theorem caset_payload_witness :
    (4 = 4 ∨ 4 = 8) ∧ 0x1234 < 2 ^ 16 ∧ 0x5678 < 2 ^ 16 ∧
    (caset 4 dirtyMachine 0x1234 0x5678).1.dataLength = 4 ∧
    (∀ mem, (caset 4 dirtyMachine 0x1234 0x5678).1.data 4 mem
      = [0x1234 >>> 8, 0x1234 &&& 0xFF, 0x5678 >>> 8, 0x5678 &&& 0xFF]) :=
  ⟨Or.inl rfl, by decide, by decide,
   (caset_payload 4 (Or.inl rfl) dirtyMachine 0x1234 0x5678 (by decide) (by decide)).2.2.1,
   (caset_payload 4 (Or.inl rfl) dirtyMachine 0x1234 0x5678 (by decide) (by decide)).2.2.2.2.2.2.1⟩

/-! ## C2 : colmod -/

/-- C2: what `colmod` leaves in the internal buffer. Bytes 0 to 3 are the pixel
format followed by three zero bytes; with a pointer size of 8, bytes 4 to 7 are
not written and keep the indeterminate content of the fresh command, so that
`colmod(BPP18)` on a machine whose fresh memory holds `0xAA` has the non zero
byte `0xAA` at indices 4 to 7. -/
theorem colmod_internal_buffer (m : Machine) (f : St7789PixelFormat) :
    (colmod 4 m f).1.payload = .internalBuffer [f.toNat, 0, 0, 0] ∧
    (colmod 8 m f).1.payload = .internalBuffer [f.toNat, 0, 0, 0,
      m.garbage 4 % 256, m.garbage 5 % 256, m.garbage 6 % 256, m.garbage 7 % 256] ∧
    (colmod 8 m f).1.dataLength = 1 ∧
    (colmod 8 dirtyMachine .BPP18).1.payload
      = .internalBuffer [0x55, 0, 0, 0, 0xAA, 0xAA, 0xAA, 0xAA] := by
  refine ⟨?_, ?_, rfl, by decide⟩ <;> cases f <;>
    simp [colmod, newCommand, getBufferUsingManagedBufferIfNeeded, store,
      MUST_USE_EXTERNAL_BUFFER, SIZE_OF_POINTER_TO_BYTE_ARRAY, PayloadUnion.asInternalBuffer,
      List.range, List.range.loop, St7789PixelFormat.toNat] <;>
    decide

/-! ## C3 : pwctrl1 -/

/-- C3: for a pointer size of 4 or 8 and every `avdd`, `avcl` and `vds` (8 bit
values included), `pwctrl1` returns a command of opcode `0xD0`, length 2 and direction write
whose payload is `0xA4` followed by the three two-bit fields packed at bits 6,
4 and 0; the arguments `0b10`, `0b01`, `0b11` give `[0xA4, 0x93]`. -/
theorem pwctrl1_payload (cap : Nat) (hcap : cap = 4 ∨ cap = 8) (m : Machine)
    (avdd avcl vds : Nat) :
    (pwctrl1 cap m avdd avcl vds).1.opcode = .PWCTRL1 ∧ St7789Opcode.PWCTRL1.toNat = 0xD0 ∧
    (pwctrl1 cap m avdd avcl vds).1.dataLength = 2 ∧
    (pwctrl1 cap m avdd avcl vds).1.dataDirection = .WRITE_7789 ∧
    (∀ mem, (pwctrl1 cap m avdd avcl vds).1.data cap mem
      = [0xA4, ((avdd &&& 3) <<< 6) ||| ((avcl &&& 3) <<< 4) ||| (vds &&& 3)]) ∧
    (∀ mem, (pwctrl1 cap m 0b10 0b01 0b11).1.data cap mem = [0xA4, 0x93]) := by
  have h : (((avdd <<< 6) &&& 192) ||| ((avcl <<< 4) &&& 48) ||| (vds &&& 3)) % 256
      = ((avdd &&& 3) <<< 6) ||| ((avcl &&& 3) <<< 4) ||| (vds &&& 3) := by
    rw [pwctrl1_byte, pwctrl1_layout]; omega
  refine ⟨?_, rfl, ?_, ?_, ?_, ?_⟩ <;> rcases hcap with rfl | rfl <;>
    simp [pwctrl1, newCommand, getBufferUsingManagedBufferIfNeeded, store, St7789Command.data,
      MUST_USE_EXTERNAL_BUFFER, SIZE_OF_POINTER_TO_BYTE_ARRAY, PayloadUnion.asInternalBuffer,
      List.range, List.range.loop, h] <;>
    decide

/-- Witness of `pwctrl1_payload` on a 32 bit target. -/
theorem pwctrl1_payload_witness :
    (4 = 4 ∨ 4 = 8) ∧
    (∀ mem, (pwctrl1 4 cleanMachine 0b10 0b01 0b11).1.data 4 mem
      = [0xA4, ((0b10 &&& 3) <<< 6) ||| ((0b01 &&& 3) <<< 4) ||| (0b11 &&& 3)]) :=
  ⟨Or.inl rfl, (pwctrl1_payload 4 (Or.inl rfl) cleanMachine 0b10 0b01 0b11).2.2.2.2.1⟩

/-! ## C4 : the factories without argument -/

/-- C4: each of `nop`, `swreset`, `slpout`, `noron`, `invon` and `dispon`
returns a command of length 0 and direction none; the only allocation is the
command itself, the union member `externalBuffer` is not written, the memory is
untouched, and the destructor of a job that owns the command evaluates no
`delete` of a payload buffer. -/
theorem argless_factories_allocate_nothing (cap : Nat) (m : Machine)
    (f : Nat → Machine → St7789Command × Machine)
    (hf : f ∈ [nop, swreset, slpout, noron, invon, dispon]) (tc td : Option Nat) :
    (f cap m).1.dataLength = 0 ∧
    (f cap m).1.dataDirection = .NONE_7789 ∧
    (f cap m).1.payload.isExternal = false ∧
    (f cap m).2.events = m.events ++ [Event.newCommand] ∧
    (f cap m).2.mem = m.mem ∧
    (∀ e ∈ (St7789Job.mk (some (f cap m).1) tc td).releases cap, e.isDeleteBuffer = false) ∧
    ((St7789Job.mk (some (f cap m).1) tc td).destructor cap (f cap m).2).events.filter
      (fun e => e.isNewArray || e.isDeleteBuffer) = m.events.filter
      (fun e => e.isNewArray || e.isDeleteBuffer) := by
  simp only [List.mem_cons, List.mem_singleton, List.not_mem_nil, or_false] at hf
  rcases hf with rfl | rfl | rfl | rfl | rfl | rfl <;>
    (refine ⟨rfl, rfl, rfl, rfl, rfl, ?_, ?_⟩ <;> cases tc <;> cases td <;>
      simp [nop, swreset, slpout, noron, invon, dispon, newCommand, St7789Job.releases,
        St7789Job.destructor, MUST_USE_EXTERNAL_BUFFER, SIZE_OF_POINTER_TO_BYTE_ARRAY,
        Event.isDeleteBuffer, Event.isNewArray, List.filter_append])

/-- Witness of `argless_factories_allocate_nothing`: `swreset` on a 32 bit target. -/
theorem argless_factories_allocate_nothing_witness :
    swreset ∈ [nop, swreset, slpout, noron, invon, dispon] ∧
    (swreset 4 cleanMachine).1.dataLength = 0 ∧
    (swreset 4 cleanMachine).1.dataDirection = .NONE_7789 ∧
    (swreset 4 cleanMachine).1.payload.isExternal = false ∧
    (swreset 4 cleanMachine).2.events = cleanMachine.events ++ [Event.newCommand] :=
  ⟨by simp,
   (argless_factories_allocate_nothing 4 cleanMachine swreset (by simp) (some 1) (some 2)).1,
   (argless_factories_allocate_nothing 4 cleanMachine swreset (by simp) (some 1) (some 2)).2.1,
   (argless_factories_allocate_nothing 4 cleanMachine swreset (by simp) (some 1) (some 2)).2.2.1,
   (argless_factories_allocate_nothing 4 cleanMachine swreset (by simp) (some 1) (some 2)).2.2.2.1⟩

/-! ## C6 : bulk writes longer than a pointer -/

/-- C6: when `size` exceeds the pointer size, `ramwr` and `ramwrc` return a
command whose member `externalBuffer` is the pointer of the caller and whose
flag `keepExternalBufferOnDelete` is true; nothing is copied or allocated
besides the command, and the destructor of the owning job evaluates no `delete`
of a payload buffer, so the buffer of the caller is not freed. -/
theorem bulk_write_keeps_caller_buffer (cap : Nat) (m : Machine) (size buffer : Nat)
    (hsize : cap < size) (tc td : Option Nat) :
    (ramwr cap m size buffer).1.payload = .externalBuffer buffer ∧
    (ramwr cap m size buffer).1.keepExternalBufferOnDelete = true ∧
    (ramwr cap m size buffer).1.dataLength = size ∧
    (ramwr cap m size buffer).2.events = m.events ++ [Event.newCommand] ∧
    (ramwr cap m size buffer).2.mem = m.mem ∧
    (St7789Job.mk (some (ramwr cap m size buffer).1) tc td).releases cap
      = [Event.deleteCommand] ++ (tc.map Event.deleteTransaction).toList
          ++ (td.map Event.deleteTransaction).toList ∧
    Event.deleteBuffer buffer ∉ (St7789Job.mk (some (ramwr cap m size buffer).1) tc td).releases cap ∧
    (ramwrc cap m size buffer).1.payload = .externalBuffer buffer ∧
    (ramwrc cap m size buffer).1.keepExternalBufferOnDelete = true ∧
    (ramwrc cap m size buffer).1.dataLength = size ∧
    (ramwrc cap m size buffer).2.events = m.events ++ [Event.newCommand] ∧
    (ramwrc cap m size buffer).2.mem = m.mem ∧
    (St7789Job.mk (some (ramwrc cap m size buffer).1) tc td).releases cap
      = [Event.deleteCommand] ++ (tc.map Event.deleteTransaction).toList
          ++ (td.map Event.deleteTransaction).toList ∧
    Event.deleteBuffer buffer ∉ (St7789Job.mk (some (ramwrc cap m size buffer).1) tc td).releases cap := by
  refine ⟨?_, ?_, ?_, ?_, ?_, ?_, ?_, ?_, ?_, ?_, ?_, ?_, ?_, ?_⟩ <;> cases tc <;> cases td <;>
    simp [ramwr, ramwrc, newCommand, setupMessageFromUnmanagedMemory, St7789Job.releases,
      MUST_USE_EXTERNAL_BUFFER, SIZE_OF_POINTER_TO_BYTE_ARRAY, hsize]

/-- Witness of `bulk_write_keeps_caller_buffer`: five bytes on a 32 bit target. -/
theorem bulk_write_keeps_caller_buffer_witness :
    4 < 5 ∧
    (ramwr 4 cleanMachine 5 77).1.payload = .externalBuffer 77 ∧
    (ramwr 4 cleanMachine 5 77).1.keepExternalBufferOnDelete = true :=
  ⟨by decide,
   (bulk_write_keeps_caller_buffer 4 cleanMachine 5 77 (by decide) none none).1,
   (bulk_write_keeps_caller_buffer 4 cleanMachine 5 77 (by decide) none none).2.1⟩

/-! ## C7 : payloads built by the library in an external buffer -/

/-- C7: the factories whose fixed length exceeds the pointer size (`pvgamctrl`
and `nvgamctrl` for a pointer size of 4 or 8, `porctrl` for a pointer size of
4) evaluate exactly one `new uint8_t[dataLength]`, leave the flag
`keepExternalBufferOnDelete` false and point `externalBuffer` to the new array;
the destructor of the owning job evaluates exactly one `delete` of a payload
buffer, that of this array, and the whole trace holds one allocation and one
release of it. -/
theorem managed_buffer_freed_once (cap : Nat) (hcap : cap = 4 ∨ cap = 8) (m : Machine)
    (v0 v1 v2 v4 v6 v13 v20 v27 v36 v43 v50 v57 v59 v61 v62 v63 j0 j1 : Nat)
    (backPorch frontPorch : Nat) (enable : Bool)
    (backPorchIdle frontPorchIdle backPorchPartial frontPorchPartial : Nat)
    (tc td : Option Nat) :
    (∀ r ∈ [pvgamctrl cap m v0 v1 v2 v4 v6 v13 v20 v27 v36 v43 v50 v57 v59 v61 v62 v63 j0 j1,
            nvgamctrl cap m v0 v1 v2 v4 v6 v13 v20 v27 v36 v43 v50 v57 v59 v61 v62 v63 j0 j1]
          ++ (if cap = 4 then
                [porctrl cap m backPorch frontPorch enable backPorchIdle frontPorchIdle
                  backPorchPartial frontPorchPartial]
              else []),
      r.2.events = m.events ++ [Event.newCommand, Event.newArray m.fresh r.1.dataLength] ∧
      r.1.keepExternalBufferOnDelete = false ∧
      r.1.payload = .externalBuffer m.fresh ∧
      (St7789Job.mk (some r.1) tc td).releases cap
        = [Event.deleteBuffer m.fresh, Event.deleteCommand]
            ++ (tc.map Event.deleteTransaction).toList
            ++ (td.map Event.deleteTransaction).toList ∧
      ((St7789Job.mk (some r.1) tc td).releases cap).filter Event.isDeleteBuffer
        = [Event.deleteBuffer m.fresh] ∧
      ((St7789Job.mk (some r.1) tc td).destructor cap r.2).events.filter
          (fun e => e.isNewArray || e.isDeleteBuffer)
        = m.events.filter (fun e => e.isNewArray || e.isDeleteBuffer)
            ++ [Event.newArray m.fresh r.1.dataLength, Event.deleteBuffer m.fresh]) ∧
    (pvgamctrl cap m v0 v1 v2 v4 v6 v13 v20 v27 v36 v43 v50 v57 v59 v61 v62 v63 j0 j1).1.dataLength
      = 14 ∧
    (nvgamctrl cap m v0 v1 v2 v4 v6 v13 v20 v27 v36 v43 v50 v57 v59 v61 v62 v63 j0 j1).1.dataLength
      = 14 ∧
    (porctrl cap m backPorch frontPorch enable backPorchIdle frontPorchIdle
      backPorchPartial frontPorchPartial).1.dataLength = 5 := by
  have key : ∀ r : St7789Command × Machine, cap < r.1.dataLength →
      r.2.events = m.events ++ [Event.newCommand, Event.newArray m.fresh r.1.dataLength] →
      r.1.keepExternalBufferOnDelete = false → r.1.payload = .externalBuffer m.fresh →
      r.2.events = m.events ++ [Event.newCommand, Event.newArray m.fresh r.1.dataLength] ∧
      r.1.keepExternalBufferOnDelete = false ∧
      r.1.payload = .externalBuffer m.fresh ∧
      (St7789Job.mk (some r.1) tc td).releases cap
        = [Event.deleteBuffer m.fresh, Event.deleteCommand]
            ++ (tc.map Event.deleteTransaction).toList
            ++ (td.map Event.deleteTransaction).toList ∧
      ((St7789Job.mk (some r.1) tc td).releases cap).filter Event.isDeleteBuffer
        = [Event.deleteBuffer m.fresh] ∧
      ((St7789Job.mk (some r.1) tc td).destructor cap r.2).events.filter
          (fun e => e.isNewArray || e.isDeleteBuffer)
        = m.events.filter (fun e => e.isNewArray || e.isDeleteBuffer)
            ++ [Event.newArray m.fresh r.1.dataLength, Event.deleteBuffer m.fresh] := by
    intro r hlen hev hkeep hpay
    refine ⟨hev, hkeep, hpay, ?_, ?_, ?_⟩ <;> cases tc <;> cases td <;>
      simp [St7789Job.releases, St7789Job.destructor, MUST_USE_EXTERNAL_BUFFER,
        SIZE_OF_POINTER_TO_BYTE_ARRAY, hlen, hev, hkeep, hpay, PayloadUnion.asExternalBuffer,
        Event.isDeleteBuffer, Event.isNewArray, List.filter_append]
  refine ⟨?_, by simp [pvgamctrl, newCommand], by simp [nvgamctrl, newCommand],
    by simp [porctrl, newCommand]⟩
  intro r hr
  have h14 : cap < 14 := by rcases hcap with rfl | rfl <;> decide
  simp only [List.mem_append, List.mem_cons, List.mem_singleton, List.not_mem_nil, or_false] at hr
  rcases hr with (rfl | rfl) | hr
  · exact key _ (by simpa [pvgamctrl, newCommand] using h14)
      (by simp [pvgamctrl, newCommand, getBuffer_external, h14])
      (by simp [pvgamctrl, newCommand, getBuffer_external, h14])
      (by simp [pvgamctrl, newCommand, getBuffer_external, h14])
  · exact key _ (by simpa [nvgamctrl, newCommand] using h14)
      (by simp [nvgamctrl, newCommand, getBuffer_external, h14])
      (by simp [nvgamctrl, newCommand, getBuffer_external, h14])
      (by simp [nvgamctrl, newCommand, getBuffer_external, h14])
  · by_cases h4 : cap = 4
    · subst h4
      simp only [if_true, List.mem_singleton] at hr
      subst hr
      exact key _ (by simp [porctrl, newCommand])
        (by simp [porctrl, newCommand, getBuffer_external])
        (by simp [porctrl, newCommand, getBuffer_external])
        (by simp [porctrl, newCommand, getBuffer_external])
    · simp [h4] at hr

/-- Witness of `managed_buffer_freed_once`: `porctrl` on a 32 bit target. -/
theorem managed_buffer_freed_once_witness :
    (4 = 4 ∨ 4 = 8) ∧
    (porctrl 4 cleanMachine 1 2 true 3 4 5 6).2.events
      = cleanMachine.events ++ [Event.newCommand, Event.newArray cleanMachine.fresh
          (porctrl 4 cleanMachine 1 2 true 3 4 5 6).1.dataLength] ∧
    ((St7789Job.mk (some (porctrl 4 cleanMachine 1 2 true 3 4 5 6).1) (some 1) (some 2)).releases
        4).filter Event.isDeleteBuffer = [Event.deleteBuffer cleanMachine.fresh] :=
  ⟨Or.inl rfl,
   ((managed_buffer_freed_once 4 (Or.inl rfl) cleanMachine 0 0 0 0 0 0 0 0 0 0 0 0 0 0 0 0 0 0
      1 2 true 3 4 5 6 (some 1) (some 2)).1 (porctrl 4 cleanMachine 1 2 true 3 4 5 6)
      (by simp)).1,
   ((managed_buffer_freed_once 4 (Or.inl rfl) cleanMachine 0 0 0 0 0 0 0 0 0 0 0 0 0 0 0 0 0 0
      1 2 true 3 4 5 6 (some 1) (some 2)).1 (porctrl 4 cleanMachine 1 2 true 3 4 5 6)
      (by simp)).2.2.2.2.1⟩

/-! ## C5 : bulk writes that fit in a pointer -/

/-- The loop of `setupMessageFromUnmanagedMemory` on an internal buffer of `cap`
bytes: the bytes at indices `i` to `i + n - 1` become those of the caller, the
others and the rest of the state are unchanged. -/
theorem copyLoop_internal (cap : Nat) (mem : Nat → Nat) (buffer : Nat) (n : Nat) :
    ∀ (i : Nat) (c : St7789Command) (m : Machine) (bs : List Nat),
      c.payload = .internalBuffer bs → bs.length = cap → i + n ≤ cap →
      ∃ bs', (copyLoop cap mem buffer n i (c, m)) = ({ c with payload := .internalBuffer bs' }, m) ∧
        bs'.length = cap ∧
        ∀ j, bs'.getD j 0 = if i ≤ j ∧ j < i + n then readByte mem (buffer + j) else bs.getD j 0 := by
  induction n with
  | zero =>
    intro i c m bs hc hlen _
    refine ⟨bs, ?_, hlen, ?_⟩
    · simp [copyLoop, ← hc]
    · intro j
      rw [if_neg (by omega)]
  | succ n ih =>
    intro i c m bs hc hlen hle
    have hi : i < cap := by omega
    have hstep : store cap .internal i (readByte mem (buffer + i)) (c, m)
        = ({ c with payload := .internalBuffer (bs.set i (readByte mem (buffer + i))) }, m) := by
      simp [store, hi, hc, PayloadUnion.asInternalBuffer, readByte]
    obtain ⟨bs', h1, h2, h3⟩ := ih (i + 1)
      { c with payload := .internalBuffer (bs.set i (readByte mem (buffer + i))) } m
      (bs.set i (readByte mem (buffer + i))) rfl (by simp [hlen]) (by omega)
    refine ⟨bs', ?_, h2, ?_⟩
    · simp only [copyLoop, hstep, h1]
    · intro j
      rw [h3 j]
      by_cases hj : i + 1 ≤ j ∧ j < i + 1 + n
      · have : i ≤ j ∧ j < i + (n + 1) := by omega
        simp [hj, this]
      · by_cases hij : j = i
        · subst hij
          have : j ≤ j ∧ j < j + (n + 1) := by omega
          simp [hj, this, List.getD_eq_getElem?_getD, List.getElem?_set, hlen, hi]
        · have : ¬ (i ≤ j ∧ j < i + (n + 1)) := by omega
          simp [hj, this, List.getD_eq_getElem?_getD, List.getElem?_set, Ne.symm hij]

/-- C5: when `size` fits in the pointer size, `ramwr` and `ramwrc` copy the
first `size` bytes of the caller buffer, as the memory holds them at the call,
into the internal buffer; the union member `externalBuffer` is not written, so
the command keeps no pointer to the caller buffer, and the data of the command
is the same whatever the memory `mem` becomes afterwards. -/
theorem bulk_write_copies_small_payload (cap : Nat) (m : Machine) (size buffer : Nat)
    (hsize : size ≤ cap) :
    (ramwr cap m size buffer).1.payload.isExternal = false ∧
    ((ramwr cap m size buffer).1.payload.asInternalBuffer cap).take size
      = (List.range size).map (fun i => readByte m.mem (buffer + i)) ∧
    (∀ mem, (ramwr cap m size buffer).1.data cap mem
      = (List.range size).map (fun i => readByte m.mem (buffer + i))) ∧
    (ramwr cap m size buffer).2.events = m.events ++ [Event.newCommand] ∧
    (ramwrc cap m size buffer).1.payload.isExternal = false ∧
    ((ramwrc cap m size buffer).1.payload.asInternalBuffer cap).take size
      = (List.range size).map (fun i => readByte m.mem (buffer + i)) ∧
    (∀ mem, (ramwrc cap m size buffer).1.data cap mem
      = (List.range size).map (fun i => readByte m.mem (buffer + i))) ∧
    (ramwrc cap m size buffer).2.events = m.events ++ [Event.newCommand] := by
  have key : ∀ op : St7789Opcode,
      ∃ bs', setupMessageFromUnmanagedMemory cap (newCommand cap m op size .WRITE_7789 false).1
          (newCommand cap m op size .WRITE_7789 false).2 size buffer
        = ({ (newCommand cap m op size .WRITE_7789 false).1 with payload := .internalBuffer bs' },
           (newCommand cap m op size .WRITE_7789 false).2) ∧
        bs'.length = cap ∧
        bs'.take size = (List.range size).map (fun i => readByte m.mem (buffer + i)) := by
    intro op
    obtain ⟨bs', h1, h2, h3⟩ := copyLoop_internal cap m.mem buffer size 0
      (newCommand cap m op size .WRITE_7789 false).1 (newCommand cap m op size .WRITE_7789 false).2
      ((List.range cap).map (fun i => m.garbage i % 256)) rfl (by simp) (by omega)
    refine ⟨bs', ?_, h2, ?_⟩
    · simp only [setupMessageFromUnmanagedMemory, MUST_USE_EXTERNAL_BUFFER,
        SIZE_OF_POINTER_TO_BYTE_ARRAY, decide_eq_true_eq, Nat.not_lt.mpr hsize, if_false]
      exact h1
    · apply List.ext_getElem
      · simp [h2, hsize]
      · intro j hj1 hj2
        have hj : j < size := by simpa using hj2
        have := h3 j
        rw [if_pos (by omega), List.getD_eq_getElem?_getD, List.getElem?_eq_getElem (by omega)] at this
        simpa using this
  obtain ⟨b1, e1, l1, t1⟩ := key .RAMWR
  obtain ⟨b2, e2, l2, t2⟩ := key .RAMWRC
  have r1 : ramwr cap m size buffer
      = ({ (newCommand cap m .RAMWR size .WRITE_7789 false).1 with payload := .internalBuffer b1 },
         (newCommand cap m .RAMWR size .WRITE_7789 false).2) := e1
  have r2 : ramwrc cap m size buffer
      = ({ (newCommand cap m .RAMWRC size .WRITE_7789 false).1 with payload := .internalBuffer b2 },
         (newCommand cap m .RAMWRC size .WRITE_7789 false).2) := e2
  rw [r1, r2]
  refine ⟨rfl, t1, ?_, rfl, rfl, t2, ?_, rfl⟩ <;> intro mem <;>
    simp [St7789Command.data, newCommand, MUST_USE_EXTERNAL_BUFFER, SIZE_OF_POINTER_TO_BYTE_ARRAY,
      Nat.not_lt.mpr hsize, PayloadUnion.asInternalBuffer, t1, t2]

/-- Witness of `bulk_write_copies_small_payload`: three bytes on a 32 bit target. -/
theorem bulk_write_copies_small_payload_witness :
    3 ≤ 4 ∧
    (ramwr 4 dirtyMachine 3 77).1.payload.isExternal = false ∧
    (∀ mem, (ramwr 4 dirtyMachine 3 77).1.data 4 mem
      = (List.range 3).map (fun i => readByte dirtyMachine.mem (77 + i))) :=
  ⟨by decide,
   (bulk_write_copies_small_payload 4 dirtyMachine 3 77 (by decide)).1,
   (bulk_write_copies_small_payload 4 dirtyMachine 3 77 (by decide)).2.2.1⟩

/-! ## C8 : where the payload is stored -/

theorem copyLoop_fields (cap : Nat) (mem : Nat → Nat) (buffer n : Nat) :
    ∀ (i : Nat) (s : St7789Command × Machine), s.1.payload.isExternal = false →
      (copyLoop cap mem buffer n i s).1.payload.isExternal = false ∧
      (copyLoop cap mem buffer n i s).1.dataLength = s.1.dataLength ∧
      (copyLoop cap mem buffer n i s).1.keepExternalBufferOnDelete = s.1.keepExternalBufferOnDelete ∧
      (copyLoop cap mem buffer n i s).2.events = s.2.events := by
  induction n with
  | zero => intro i s h; exact ⟨h, rfl, rfl, rfl⟩
  | succ n ih =>
    intro i s h
    have := ih (i + 1) (store cap .internal i (readByte mem (buffer + i)) s)
      (store_internal_isExternal cap i _ s h)
    simpa [copyLoop] using this

/-- C8: for every call of a factory, whatever its arguments and the pointer
size, the payload of the returned command lies in the external buffer exactly
when `dataLength` exceeds the pointer size; a command that fits evaluates no
`new uint8_t[n]`; an external buffer is kept on delete (owned by the caller)
exactly for `ramwr` and `ramwrc`; and the two macros are complementary. A
length equal to the pointer size is internal, one more is external. -/
theorem payload_store_invariant (cap : Nat) (m : Machine) (call : Call) :
    ((call.run cap m).1.payload.isExternal = true ↔ cap < (call.run cap m).1.dataLength) ∧
    ((call.run cap m).1.dataLength ≤ cap →
      (call.run cap m).2.events = m.events ++ [Event.newCommand]) ∧
    ((call.run cap m).1.payload.isExternal = true →
      (call.run cap m).1.keepExternalBufferOnDelete = call.isBulkWrite) ∧
    (∀ x : Nat, SHOULD_USE_INTERNAL_BUFFER cap x = !MUST_USE_EXTERNAL_BUFFER cap x) ∧
    ((Call.ramwr cap 0).run cap m).1.payload.isExternal = false ∧
    ((Call.ramwr (cap + 1) 0).run cap m).1.payload.isExternal = true ∧
    ((Call.caset 0 0).run 4 m).1.payload.isExternal = false ∧
    ((Call.porctrl 0 0 false 0 0 0 0).run 4 m).1.payload.isExternal = true := by
  have hbulk : ∀ (op : St7789Opcode) (size buffer : Nat),
      ((setupMessageFromUnmanagedMemory cap (newCommand cap m op size .WRITE_7789 false).1
          (newCommand cap m op size .WRITE_7789 false).2 size buffer).1.payload.isExternal = true
        ↔ cap < size) ∧
      (setupMessageFromUnmanagedMemory cap (newCommand cap m op size .WRITE_7789 false).1
          (newCommand cap m op size .WRITE_7789 false).2 size buffer).1.dataLength = size ∧
      (setupMessageFromUnmanagedMemory cap (newCommand cap m op size .WRITE_7789 false).1
          (newCommand cap m op size .WRITE_7789 false).2 size buffer).2.events
        = m.events ++ [Event.newCommand] ∧
      ((setupMessageFromUnmanagedMemory cap (newCommand cap m op size .WRITE_7789 false).1
          (newCommand cap m op size .WRITE_7789 false).2 size buffer).1.payload.isExternal = true →
        (setupMessageFromUnmanagedMemory cap (newCommand cap m op size .WRITE_7789 false).1
          (newCommand cap m op size .WRITE_7789 false).2 size buffer).1.keepExternalBufferOnDelete
          = true) := by
    intro op size buffer
    by_cases h : cap < size
    · simp [setupMessageFromUnmanagedMemory, MUST_USE_EXTERNAL_BUFFER,
        SIZE_OF_POINTER_TO_BYTE_ARRAY, h, PayloadUnion.isExternal, newCommand]
    · obtain ⟨h1, h2, _, h4⟩ := copyLoop_fields cap m.mem buffer size 0
        (newCommand cap m op size .WRITE_7789 false) rfl
      simp only [setupMessageFromUnmanagedMemory, MUST_USE_EXTERNAL_BUFFER,
        SIZE_OF_POINTER_TO_BYTE_ARRAY, decide_eq_true_eq, h, if_false]
      simp only [newCommand] at h1 h2 h4 ⊢
      simp [h1, h2, h4, h]
  have hall : ((call.run cap m).1.payload.isExternal = true ↔ cap < (call.run cap m).1.dataLength) ∧
      ((call.run cap m).1.dataLength ≤ cap →
        (call.run cap m).2.events = m.events ++ [Event.newCommand]) ∧
      ((call.run cap m).1.payload.isExternal = true →
        (call.run cap m).1.keepExternalBufferOnDelete = call.isBulkWrite) := by
    rcases Nat.lt_or_ge cap (call.run cap m).1.dataLength with h | h <;> cases call
    case inl.ramwr size buffer =>
      obtain ⟨h1, h2, h3, h4⟩ := hbulk .RAMWR size buffer
      exact ⟨by simpa [Call.run, ramwr, h2] using h1, fun _ => h3, h4⟩
    case inr.ramwr size buffer =>
      obtain ⟨h1, h2, h3, h4⟩ := hbulk .RAMWR size buffer
      exact ⟨by simpa [Call.run, ramwr, h2] using h1, fun _ => h3, h4⟩
    case inl.ramwrc size buffer =>
      obtain ⟨h1, h2, h3, h4⟩ := hbulk .RAMWRC size buffer
      exact ⟨by simpa [Call.run, ramwrc, h2] using h1, fun _ => h3, h4⟩
    case inr.ramwrc size buffer =>
      obtain ⟨h1, h2, h3, h4⟩ := hbulk .RAMWRC size buffer
      exact ⟨by simpa [Call.run, ramwrc, h2] using h1, fun _ => h3, h4⟩
    all_goals
      first
        | (simp [Call.run, nop, swreset, slpout, noron, invon, dispon, newCommand] at h
           done)
        | (simp [Call.run, nop, swreset, slpout, noron, invon, dispon, caset, raset, madctl,
             colmod, porctrl, gctrl, vcom, lcmctrl, vdvvrhen, vrhs, vdvs, frctrl2, pwctrl1,
             pvgamctrl, nvgamctrl, newCommand] at h
           simp [Call.run, Call.isBulkWrite, nop, swreset, slpout, noron, invon, dispon, caset,
             raset, madctl, colmod, porctrl, gctrl, vcom, lcmctrl, vdvvrhen, vrhs, vdvs, frctrl2,
             pwctrl1, pvgamctrl, nvgamctrl, newCommand, getBuffer_external, getBuffer_internal,
             h]
           try omega)
  refine ⟨hall.1, hall.2.1, hall.2.2, ?_, ?_, ?_, ?_, ?_⟩
  · intro x
    by_cases h : cap < x <;>
      simp [SHOULD_USE_INTERNAL_BUFFER, MUST_USE_EXTERNAL_BUFFER, SIZE_OF_POINTER_TO_BYTE_ARRAY, h]
    omega
  · have h := (hbulk .RAMWR cap 0).1
    cases hx : ((Call.ramwr cap 0).run cap m).1.payload.isExternal
    · rfl
    · exact absurd (h.mp hx) (Nat.lt_irrefl cap)
  · exact (hbulk .RAMWR (cap + 1) 0).1.mpr (Nat.lt_succ_self cap)
  · simp [Call.run, caset, newCommand, getBuffer_internal]
  · simp [Call.run, porctrl, newCommand, getBuffer_external]

/-! ## C9 : porctrl -/

/-- C9: `porctrl` never reads its argument `frontPorchPartial`: the returned
command and state are the same for any two values of it, and byte 3 holds the
low nibble of `backPorchPartial` twice. With `frontPorchPartial = 1` and every
other argument zero the payload is five zero bytes, where the two-argument
packing `((backPorchPartial & 0x0F) << 4) | (frontPorchPartial & 0x0F)` asks
for byte 3 = 1; with `backPorchPartial = 5` and `frontPorchPartial = 0` byte 3
is `0x55` instead of `0x50`. -/
theorem porctrl_ignores_frontPorchPartial :
    (∀ (cap : Nat) (m : Machine) (backPorch frontPorch : Nat) (enable : Bool)
        (backPorchIdle frontPorchIdle backPorchPartial x y : Nat),
      porctrl cap m backPorch frontPorch enable backPorchIdle frontPorchIdle backPorchPartial x
        = porctrl cap m backPorch frontPorch enable backPorchIdle frontPorchIdle
            backPorchPartial y) ∧
    builtData 8 (porctrl 8 cleanMachine 0 0 false 0 0 0 1) = [0, 0, 0, 0, 0] ∧
    builtData 4 (porctrl 4 cleanMachine 0 0 false 0 0 0 1) = [0, 0, 0, 0, 0] ∧
    (((0 &&& 0x0F) <<< 4) ||| (1 &&& 0x0F)) = 1 ∧
    builtData 8 (porctrl 8 cleanMachine 0 0 false 0 0 5 0) = [0, 0, 0, 0x55, 0] ∧
    builtData 4 (porctrl 4 cleanMachine 0 0 false 0 0 5 0) = [0, 0, 0, 0x55, 0] ∧
    (((5 &&& 0x0F) <<< 4) ||| (0 &&& 0x0F)) = 0x50 := by
  refine ⟨fun _ _ _ _ _ _ _ _ _ _ => rfl, ?_, ?_, ?_, ?_, ?_, ?_⟩ <;> decide

/-! ## C10 : the gamma table -/

/-- The byte written for two nibbles packed in one byte, in arithmetic form. -/
theorem packed_4_4 (hi lo : Nat) :
    (((hi &&& 0x0f) <<< 4) ||| (lo &&& 0x0f)) % 256 = (hi % 16) * 16 + lo % 16 := by
  rw [and_15, and_15, Nat.shiftLeft_eq, or_eq_add _ _ 4 (by omega) (by omega)]
  omega

/-- The byte written for a two bit field above a nibble, in arithmetic form. -/
theorem packed_2_4 (hi lo : Nat) :
    (((hi &&& 0x03) <<< 4) ||| (lo &&& 0x0f)) % 256 = (hi % 4) * 16 + lo % 16 := by
  rw [and_3, and_15, Nat.shiftLeft_eq, or_eq_add _ _ 4 (by omega) (by omega)]
  omega

/-- The byte written for two three bit fields four bits apart, in arithmetic form. -/
theorem packed_3_3 (hi lo : Nat) :
    (((hi &&& 0x07) <<< 4) ||| (lo &&& 0x07)) % 256 = (hi % 8) * 16 + lo % 8 := by
  rw [and_7, and_7, Nat.shiftLeft_eq, or_eq_add _ _ 4 (by omega) (by omega)]
  omega

/-- The fourteen bytes that `pvgamctrl` leaves in its buffer, in arithmetic form. -/
theorem pvgamctrl_data (cap : Nat) (hcap : cap < 14) (m : Machine)
    (v0 v1 v2 v4 v6 v13 v20 v27 v36 v43 v50 v57 v59 v61 v62 v63 j0 j1 : Nat) :
    builtData cap
        (pvgamctrl cap m v0 v1 v2 v4 v6 v13 v20 v27 v36 v43 v50 v57 v59 v61 v62 v63 j0 j1)
      = [(v63 % 16) * 16 + v0 % 16, v1 % 64, v2 % 64, v4 % 32, v6 % 32,
         (j0 % 4) * 16 + v13 % 16, v20 % 128, (v36 % 8) * 16 + v27 % 8, v43 % 128,
         (j1 % 4) * 16 + v50 % 16, v57 % 32, v59 % 32, v61 % 64, v62 % 64] := by
  simp [builtData, St7789Command.data, pvgamctrl, newCommand, getBuffer_external, hcap, store,
    MUST_USE_EXTERNAL_BUFFER, SIZE_OF_POINTER_TO_BYTE_ARRAY, PayloadUnion.asExternalBuffer,
    readByte, List.range, List.range.loop, packed_4_4, packed_2_4, packed_3_3, and_63, and_31,
    and_127]
  omega

/-- C10: for a pointer size of 4 or 8 and gamma settings within their
documented bit widths, `pvgamctrl` yields fourteen payload bytes from which the
documented extraction recovers every setting; hence two in-range tuples with
the same payload are equal. -/
theorem pvgamctrl_lossless (cap : Nat) (hcap : cap = 4 ∨ cap = 8) (m : Machine)
    (g : GammaSettings) (hg : g.inRange) :
    (builtData cap (g.pvgamctrl cap m)).length = 14 ∧
    (g.pvgamctrl cap m).1.dataLength = 14 ∧
    extractGamma (builtData cap (g.pvgamctrl cap m)) = some g ∧
    ∀ g' : GammaSettings, g'.inRange →
      builtData cap (g'.pvgamctrl cap m) = builtData cap (g.pvgamctrl cap m) → g' = g := by
  have h14 : cap < 14 := by rcases hcap with rfl | rfl <;> decide
  have hex : ∀ k : GammaSettings, k.inRange →
      extractGamma (builtData cap (k.pvgamctrl cap m)) = some k := by
    intro k hk
    obtain ⟨a0, a1, a2, a3, a4, a5, a6, a7, a8, a9, a10, a11, a12, a13, a14, a15, a16, a17⟩ := k
    simp only [GammaSettings.inRange, Nat.reducePow] at hk
    simp only [GammaSettings.pvgamctrl, pvgamctrl_data cap h14, extractGamma, and_15, and_7,
      and_3, Nat.shiftRight_eq_div_pow, Nat.reducePow, Option.some.injEq,
      GammaSettings.mk.injEq]
    omega
  refine ⟨?_, ?_, hex g hg, ?_⟩
  · simp [GammaSettings.pvgamctrl, pvgamctrl_data cap h14]
  · simp [GammaSettings.pvgamctrl, pvgamctrl, newCommand]
  · intro g' hg' heq
    have h1 := hex g' hg'
    rw [heq, hex g hg] at h1
    exact (Option.some.inj h1).symm

/-- Witness of `pvgamctrl_lossless`: every field at its largest value, 32 bit target. -/
theorem pvgamctrl_lossless_witness :
    (4 = 4 ∨ 4 = 8) ∧ gammaSample.inRange ∧
    extractGamma (builtData 4 (gammaSample.pvgamctrl 4 dirtyMachine)) = some gammaSample :=
  ⟨Or.inl rfl, by simp [GammaSettings.inRange, gammaSample],
   (pvgamctrl_lossless 4 (Or.inl rfl) dirtyMachine gammaSample
      (by simp [GammaSettings.inRange, gammaSample])).2.2.1⟩

/-! ## C11 : arguments wider than their field -/

theorem and_and_self (x k : Nat) : (x &&& k) &&& k = x &&& k := by
  rw [Nat.and_assoc, Nat.and_self]

/-- Bytes with two three bit fields four bits apart have bits 3 and 7 clear. -/
theorem packed_3_3_gaps : ∀ a, a < 8 → ∀ b, b < 8 → (a * 16 + b) &&& 0x88 = 0 := by
  decide

/-- A value below 32 has bits 5 to 7 clear. -/
theorem high_bits_32 : ∀ x, x < 32 → x &&& 0xE0 = 0 := by
  decide

/-- A value below 64 has bits 6 and 7 clear. -/
theorem high_bits_64 : ∀ x, x < 64 → x &&& 0xC0 = 0 := by
  decide

/-- A value below 128 has bit 7 clear. -/
theorem high_bits_128 : ∀ x, x < 128 → x &&& 0x80 = 0 := by
  decide

/-- The fourteen bytes that `nvgamctrl` leaves in its buffer, in arithmetic form. -/
theorem nvgamctrl_data (cap : Nat) (hcap : cap < 14) (m : Machine)
    (v0 v1 v2 v4 v6 v13 v20 v27 v36 v43 v50 v57 v59 v61 v62 v63 j0 j1 : Nat) :
    builtData cap
        (nvgamctrl cap m v0 v1 v2 v4 v6 v13 v20 v27 v36 v43 v50 v57 v59 v61 v62 v63 j0 j1)
      = [(v63 % 16) * 16 + v0 % 16, v1 % 64, v2 % 64, v4 % 32, v6 % 32,
         (j0 % 4) * 16 + v13 % 16, v20 % 128, (v36 % 8) * 16 + v27 % 8, v43 % 128,
         (j1 % 4) * 16 + v50 % 16, v57 % 32, v59 % 32, v61 % 64, v62 % 64] := by
  simp [builtData, St7789Command.data, nvgamctrl, newCommand, getBuffer_external, hcap, store,
    MUST_USE_EXTERNAL_BUFFER, SIZE_OF_POINTER_TO_BYTE_ARRAY, PayloadUnion.asExternalBuffer,
    readByte, List.range, List.range.loop, packed_4_4, packed_2_4, packed_3_3, and_63, and_31,
    and_127]
  omega

/-- C11: the factories are total functions of their arguments, and an argument
wider than its field is cut to the field: `gctrl`, `frctrl2`, `pwctrl1`,
`pvgamctrl` and `nvgamctrl` return the same command and state on the arguments
and on the arguments masked to their documented widths; the masked gamma
settings are in range, and for a pointer size below 14 every bit of the
fourteen gamma payload bytes outside the documented fields is zero. -/
theorem out_of_range_arguments_are_masked (cap : Nat) (m : Machine)
    (vghSetting vglSetting nla rtna avdd avcl vds : Nat) (g : GammaSettings) :
    gctrl cap m vghSetting vglSetting = gctrl cap m (vghSetting &&& 0x0F) (vglSetting &&& 0x0F) ∧
    frctrl2 cap m nla rtna = frctrl2 cap m (nla &&& 0x07) (rtna &&& 0x1F) ∧
    pwctrl1 cap m avdd avcl vds = pwctrl1 cap m (avdd &&& 3) (avcl &&& 3) (vds &&& 3) ∧
    g.pvgamctrl cap m = g.masked.pvgamctrl cap m ∧
    g.nvgamctrl cap m = g.masked.nvgamctrl cap m ∧
    g.masked.inRange ∧
    (cap < 14 →
      List.zipWith (fun b k => b &&& (0xFF - k)) (builtData cap (g.pvgamctrl cap m)) gammaFieldBits
        = List.replicate 14 0 ∧
      List.zipWith (fun b k => b &&& (0xFF - k)) (builtData cap (g.nvgamctrl cap m)) gammaFieldBits
        = List.replicate 14 0) := by
  have hg : ((vghSetting &&& 15) <<< 4 &&& 240) ||| ((vglSetting &&& 15) &&& 15)
      = (vghSetting <<< 4 &&& 240) ||| (vglSetting &&& 15) := by
    rw [shl4_and_f0, shl4_and_f0, and_and_self, and_15, Nat.mod_mod]
  have hf : ((nla &&& 7) <<< 5 &&& 224) ||| ((rtna &&& 31) &&& 31)
      = (nla <<< 5 &&& 224) ||| (rtna &&& 31) := by
    rw [shl5_and_e0, shl5_and_e0, and_and_self, and_7, Nat.mod_mod]
  have hp : ((avdd &&& 3) <<< 6 &&& 192) ||| ((avcl &&& 3) <<< 4 &&& 48) ||| ((vds &&& 3) &&& 3)
      = (avdd <<< 6 &&& 192) ||| (avcl <<< 4 &&& 48) ||| (vds &&& 3) := by
    rw [shl6_and_c0, shl6_and_c0, shl4_and_30, shl4_and_30, and_and_self, and_3, and_3,
      Nat.mod_mod, Nat.mod_mod]
  have hbits : ∀ l : List Nat, l = [(g.v63 % 16) * 16 + g.v0 % 16, g.v1 % 64, g.v2 % 64,
        g.v4 % 32, g.v6 % 32, (g.j0 % 4) * 16 + g.v13 % 16, g.v20 % 128,
        (g.v36 % 8) * 16 + g.v27 % 8, g.v43 % 128, (g.j1 % 4) * 16 + g.v50 % 16, g.v57 % 32,
        g.v59 % 32, g.v61 % 64, g.v62 % 64] →
      List.zipWith (fun b k => b &&& (0xFF - k)) l gammaFieldBits = List.replicate 14 0 := by
    intro l hl
    subst hl
    simp only [gammaFieldBits, List.zipWith, List.replicate, Nat.reduceSub, Nat.and_zero]
    rw [high_bits_64 (g.v1 % 64) (by omega), high_bits_64 (g.v2 % 64) (by omega),
      high_bits_32 (g.v4 % 32) (by omega), high_bits_32 (g.v6 % 32) (by omega),
      high_bits_64 (g.j0 % 4 * 16 + g.v13 % 16) (by omega),
      high_bits_128 (g.v20 % 128) (by omega),
      packed_3_3_gaps (g.v36 % 8) (by omega) (g.v27 % 8) (by omega),
      high_bits_128 (g.v43 % 128) (by omega),
      high_bits_64 (g.j1 % 4 * 16 + g.v50 % 16) (by omega),
      high_bits_32 (g.v57 % 32) (by omega), high_bits_32 (g.v59 % 32) (by omega),
      high_bits_64 (g.v61 % 64) (by omega), high_bits_64 (g.v62 % 64) (by omega)]
  refine ⟨?_, ?_, ?_, ?_, ?_, ?_, ?_⟩
  · simp only [gctrl, hg]
  · simp only [frctrl2, hf]
  · simp only [pwctrl1, hp]
  · simp only [GammaSettings.pvgamctrl, GammaSettings.masked, pvgamctrl, and_and_self]
  · simp only [GammaSettings.nvgamctrl, GammaSettings.masked, nvgamctrl, and_and_self]
  · simp only [GammaSettings.inRange, GammaSettings.masked, and_15, and_63, and_31, and_127,
      and_7, and_3, Nat.reducePow]
    omega
  · intro hcap
    exact ⟨hbits _ (pvgamctrl_data cap hcap m _ _ _ _ _ _ _ _ _ _ _ _ _ _ _ _ _ _),
      hbits _ (nvgamctrl_data cap hcap m _ _ _ _ _ _ _ _ _ _ _ _ _ _ _ _ _ _)⟩

/-- Witness of `out_of_range_arguments_are_masked`: all arguments `0xFF`, 32 bit target. -/
theorem out_of_range_arguments_are_masked_witness :
    4 < 14 ∧
    gctrl 4 cleanMachine 0xFF 0xFF = gctrl 4 cleanMachine (0xFF &&& 0x0F) (0xFF &&& 0x0F) ∧
    List.zipWith (fun b k => b &&& (0xFF - k)) (builtData 4 (gammaWide.pvgamctrl 4 cleanMachine))
        gammaFieldBits = List.replicate 14 0 :=
  ⟨by decide,
   (out_of_range_arguments_are_masked 4 cleanMachine 0xFF 0xFF 0 0 0 0 0 gammaWide).1,
   ((out_of_range_arguments_are_masked 4 cleanMachine 0xFF 0xFF 0 0 0 0 0 gammaWide).2.2.2.2.2.2
      (by decide)).1⟩

/-! ## C12 : opcodes and lengths -/

theorem copyLoop_header (cap : Nat) (mem : Nat → Nat) (buffer n : Nat) :
    ∀ (i : Nat) (s : St7789Command × Machine),
      (copyLoop cap mem buffer n i s).1.opcode = s.1.opcode ∧
      (copyLoop cap mem buffer n i s).1.dataLength = s.1.dataLength ∧
      (copyLoop cap mem buffer n i s).1.dataDirection = s.1.dataDirection := by
  induction n with
  | zero => intro i s; exact ⟨rfl, rfl, rfl⟩
  | succ n ih =>
    intro i s
    have := ih (i + 1) (store cap .internal i (readByte mem (buffer + i)) s)
    simpa [copyLoop] using this

theorem setupMessage_header (cap : Nat) (c : St7789Command) (m : Machine) (size buffer : Nat) :
    (setupMessageFromUnmanagedMemory cap c m size buffer).1.opcode = c.opcode ∧
    (setupMessageFromUnmanagedMemory cap c m size buffer).1.dataLength = c.dataLength ∧
    (setupMessageFromUnmanagedMemory cap c m size buffer).1.dataDirection = c.dataDirection := by
  simp only [setupMessageFromUnmanagedMemory]
  split
  · exact ⟨rfl, rfl, rfl⟩
  · exact copyLoop_header cap m.mem buffer size 0 (c, m)

/-- Opcode, length and direction of the command of every call. -/
theorem run_header (cap : Nat) (m : Machine) (call : Call) :
    ((call.run cap m).1.opcode.toNat, (call.run cap m).1.dataLength) = call.opcodeAndLength ∧
    (call.run cap m).1.dataDirection
      = (if call.index < 6 then .NONE_7789 else .WRITE_7789) := by
  cases call
  case ramwr size buffer =>
    obtain ⟨h1, h2, h3⟩ := setupMessage_header cap
      (newCommand cap m .RAMWR size .WRITE_7789 false).1
      (newCommand cap m .RAMWR size .WRITE_7789 false).2 size buffer
    simp only [Call.run, ramwr, h1, h2, h3]
    simp [newCommand, Call.opcodeAndLength, Call.index, St7789Opcode.toNat]
  case ramwrc size buffer =>
    obtain ⟨h1, h2, h3⟩ := setupMessage_header cap
      (newCommand cap m .RAMWRC size .WRITE_7789 false).1
      (newCommand cap m .RAMWRC size .WRITE_7789 false).2 size buffer
    simp only [Call.run, ramwrc, h1, h2, h3]
    simp [newCommand, Call.opcodeAndLength, Call.index, St7789Opcode.toNat]
  all_goals
    simp [Call.run, Call.opcodeAndLength, Call.index, St7789Opcode.toNat, nop, swreset, slpout,
      noron, invon, dispon, caset, raset, madctl, colmod, porctrl, gctrl, vcom, lcmctrl,
      vdvvrhen, vrhs, vdvs, frctrl2, pwctrl1, pvgamctrl, nvgamctrl, newCommand]

/-- C12: every factory stamps the opcode and the payload length of the list
(`nop` 0x00/0, ..., `nvgamctrl` 0xE1/14), whatever its arguments, the pointer
size and the machine; for `ramwr` (0x2C) and `ramwrc` (0x3C) the length is the
argument `size`; and two calls whose commands carry the same opcode are calls
of the same factory. -/
theorem factories_stamp_opcode_and_length (cap : Nat) (m : Machine) (call : Call) :
    ((call.run cap m).1.opcode.toNat, (call.run cap m).1.dataLength) = call.opcodeAndLength ∧
    (∀ size buffer : Nat, (ramwr cap m size buffer).1.opcode.toNat = 0x2C ∧
      (ramwr cap m size buffer).1.dataLength = size ∧
      (ramwrc cap m size buffer).1.opcode.toNat = 0x3C ∧
      (ramwrc cap m size buffer).1.dataLength = size) ∧
    (∀ (cap' : Nat) (m' : Machine) (call' : Call),
      (call'.run cap' m').1.opcode.toNat = (call.run cap m).1.opcode.toNat →
        call'.index = call.index) := by
  refine ⟨(run_header cap m call).1, ?_, ?_⟩
  · intro size buffer
    have h1 := (run_header cap m (.ramwr size buffer)).1
    have h2 := (run_header cap m (.ramwrc size buffer)).1
    simp only [Call.run, Call.opcodeAndLength, Prod.mk.injEq] at h1 h2
    exact ⟨h1.1, h1.2, h2.1, h2.2⟩
  · intro cap' m' call' h
    have h1 := congrArg Prod.fst (run_header cap m call).1
    have h2 := congrArg Prod.fst (run_header cap' m' call').1
    simp only at h1 h2
    rw [h1, h2] at h
    cases call <;> cases call' <;> first | rfl | (simp [Call.opcodeAndLength] at h)

/-! ## C13 : direction and length -/

/-- C13: the direction of a command is fixed by its factory, not by its length.
`ramwr(0, buffer)` and `ramwrc(0, buffer)` return a command of length 0 whose
direction is write, not none. For every call: the direction is never read, a
command of positive length has direction write, a command of direction none
has length 0, and a command of length 0 whose direction is not none comes from
one of the two bulk writes with `size = 0`. -/
theorem zero_length_bulk_write_has_direction_write :
    (ramwr 4 cleanMachine 0 77).1.dataLength = 0 ∧
    (ramwr 4 cleanMachine 0 77).1.dataDirection = .WRITE_7789 ∧
    (ramwrc 4 cleanMachine 0 77).1.dataLength = 0 ∧
    (ramwrc 4 cleanMachine 0 77).1.dataDirection = .WRITE_7789 ∧
    (∀ (cap : Nat) (m : Machine) (size buffer : Nat),
      (ramwr cap m size buffer).1.dataDirection = .WRITE_7789 ∧
      (ramwrc cap m size buffer).1.dataDirection = .WRITE_7789) ∧
    (∀ (cap : Nat) (m : Machine) (call : Call),
      (call.run cap m).1.dataDirection ≠ .READ_7789 ∧
      (0 < (call.run cap m).1.dataLength → (call.run cap m).1.dataDirection = .WRITE_7789) ∧
      ((call.run cap m).1.dataDirection = .NONE_7789 → (call.run cap m).1.dataLength = 0) ∧
      ((call.run cap m).1.dataLength = 0 → (call.run cap m).1.dataDirection ≠ .NONE_7789 →
        call.isBulkWrite = true)) := by
  refine ⟨by decide, by decide, by decide, by decide, ?_, ?_⟩
  · intro cap m size buffer
    exact ⟨(run_header cap m (.ramwr size buffer)).2, (run_header cap m (.ramwrc size buffer)).2⟩
  · intro cap m call
    obtain ⟨h1, h2⟩ := run_header cap m call
    have hl := congrArg Prod.snd h1
    simp only at hl
    rw [h2, hl]
    cases call <;> simp [Call.index, Call.opcodeAndLength, Call.isBulkWrite]

/-! ## C14 : the destructor of a job -/

/-- C14: the destructor of a job that holds a command and two transactions
evaluates, in this order, the `delete` of the external buffer if and only if
`dataLength` exceeds the pointer size and `keepExternalBufferOnDelete` is
false, then one `delete` of the command, one of the command transaction and
one of the data transaction; a null command yields neither the `delete` of a
command nor that of a buffer, a null transaction yields no `delete` of it, and
a job of three null pointers releases nothing. -/
theorem destructor_releases_each_owned_pointer_once (cap : Nat) (c : St7789Command)
    (t1 t2 : Nat) (tc td : Option Nat) :
    (St7789Job.mk (some c) (some t1) (some t2)).releases cap
      = (if cap < c.dataLength ∧ c.keepExternalBufferOnDelete = false then
           [Event.deleteBuffer c.payload.asExternalBuffer]
         else []) ++
        [Event.deleteCommand, Event.deleteTransaction t1, Event.deleteTransaction t2] ∧
    ((St7789Job.mk (some c) (some t1) (some t2)).releases cap).count Event.deleteCommand = 1 ∧
    (((St7789Job.mk (some c) tc td).releases cap).filter Event.isDeleteBuffer
      = if cap < c.dataLength ∧ c.keepExternalBufferOnDelete = false then
          [Event.deleteBuffer c.payload.asExternalBuffer]
        else []) ∧
    (t1 ≠ t2 →
      ((St7789Job.mk (some c) (some t1) (some t2)).releases cap).count
          (Event.deleteTransaction t1) = 1 ∧
      ((St7789Job.mk (some c) (some t1) (some t2)).releases cap).count
          (Event.deleteTransaction t2) = 1) ∧
    (St7789Job.mk none tc td).releases cap
      = (tc.map Event.deleteTransaction).toList ++ (td.map Event.deleteTransaction).toList ∧
    (St7789Job.mk (some c) none none).releases cap
      = (if cap < c.dataLength ∧ c.keepExternalBufferOnDelete = false then
           [Event.deleteBuffer c.payload.asExternalBuffer]
         else []) ++ [Event.deleteCommand] ∧
    (St7789Job.mk none none none).releases cap = [] ∧
    (∀ m : Machine, ((St7789Job.mk (some c) (some t1) (some t2)).destructor cap m).events
      = m.events ++ (St7789Job.mk (some c) (some t1) (some t2)).releases cap) := by
  by_cases h : cap < c.dataLength <;> cases hk : c.keepExternalBufferOnDelete <;>
    (refine ⟨?_, ?_, ?_, ?_, ?_, ?_, ?_, ?_⟩ <;> cases tc <;> cases td <;>
      simp [St7789Job.releases, St7789Job.destructor, MUST_USE_EXTERNAL_BUFFER,
        SIZE_OF_POINTER_TO_BYTE_ARRAY, h, hk, Event.isDeleteBuffer, List.count_cons] <;>
      (intro hne; exact ⟨fun e => hne e.symm, hne⟩))

/-! ## C16 : commands with a single active byte -/

/-- C16: for a pointer size of 4 or 8 and every 8 bit argument `v`, each of
`madctl`, `vcom`, `lcmctrl`, `vrhs` and `vdvs` returns a write command of
length 1 whose internal buffer starts with `v` followed by three zero bytes;
`gctrl` and `frctrl2` have length 1 and the same three zero bytes at indices 1
to 3. -/
theorem single_byte_commands (cap : Nat) (hcap : cap = 4 ∨ cap = 8) (m : Machine) (v : Nat)
    (hv : v < 2 ^ 8) (a b : Nat) :
    (∀ f ∈ [madctl, vcom, lcmctrl, vrhs, vdvs],
      (f cap m v).1.dataLength = 1 ∧
      (f cap m v).1.dataDirection = .WRITE_7789 ∧
      (f cap m v).1.payload.isExternal = false ∧
      ((f cap m v).1.payload.asInternalBuffer cap).take 4 = [v, 0, 0, 0] ∧
      builtData cap (f cap m v) = [v]) ∧
    (∀ f ∈ [gctrl, frctrl2],
      (f cap m a b).1.dataLength = 1 ∧
      (f cap m a b).1.dataDirection = .WRITE_7789 ∧
      (f cap m a b).1.payload.isExternal = false ∧
      (((f cap m a b).1.payload.asInternalBuffer cap).take 4).drop 1 = [0, 0, 0]) := by
  have hb : (v &&& 255) % 256 = v := by rw [and_255]; omega
  constructor
  · intro f hf
    simp only [List.mem_cons, List.mem_singleton, List.not_mem_nil, or_false] at hf
    rcases hf with rfl | rfl | rfl | rfl | rfl <;> rcases hcap with rfl | rfl <;>
      simp [madctl, vcom, lcmctrl, vrhs, vdvs, newCommand, getBuffer_internal, store, builtData,
        St7789Command.data, MUST_USE_EXTERNAL_BUFFER, SIZE_OF_POINTER_TO_BYTE_ARRAY,
        PayloadUnion.asInternalBuffer, List.range, List.range.loop, hb]
  · intro f hf
    simp only [List.mem_cons, List.mem_singleton, List.not_mem_nil, or_false] at hf
    rcases hf with rfl | rfl <;> rcases hcap with rfl | rfl <;>
      simp [gctrl, frctrl2, newCommand, getBuffer_internal, store,
        MUST_USE_EXTERNAL_BUFFER, SIZE_OF_POINTER_TO_BYTE_ARRAY,
        PayloadUnion.asInternalBuffer, List.range, List.range.loop]

/-- Witness of `single_byte_commands`: `madctl(0xA0)` on a 64 bit host with dirty memory. -/
theorem single_byte_commands_witness :
    (8 = 4 ∨ 8 = 8) ∧ 0xA0 < 2 ^ 8 ∧ madctl ∈ [madctl, vcom, lcmctrl, vrhs, vdvs] ∧
    ((madctl 8 dirtyMachine 0xA0).1.payload.asInternalBuffer 8).take 4 = [0xA0, 0, 0, 0] ∧
    builtData 8 (madctl 8 dirtyMachine 0xA0) = [0xA0] :=
  ⟨Or.inr rfl, by decide, by simp,
   ((single_byte_commands 8 (Or.inr rfl) dirtyMachine 0xA0 (by decide) 0 0).1 madctl
      (by simp)).2.2.2.1,
   ((single_byte_commands 8 (Or.inr rfl) dirtyMachine 0xA0 (by decide) 0 0).1 madctl
      (by simp)).2.2.2.2⟩

/-! ## C17 : row and column address commands -/

/-- C17: for a pointer size of 4 or 8 and 16 bit values `a` and `b`,
`raset(a, b)` and `caset(a, b)` return the same command but for the opcode
(`0x2B` against `0x2A`) and leave the same machine state: same length 4, same
direction write, same internal storage, and the same four payload bytes, the
big-endian bytes of `a` and `b`. -/
theorem raset_same_layout_as_caset (cap : Nat) (hcap : cap = 4 ∨ cap = 8) (m : Machine)
    (a b : Nat) (ha : a < 2 ^ 16) (hb : b < 2 ^ 16) :
    (raset cap m a b).1 = { (caset cap m a b).1 with opcode := .RASET } ∧
    (raset cap m a b).2 = (caset cap m a b).2 ∧
    (raset cap m a b).1.opcode.toNat = 0x2B ∧ (caset cap m a b).1.opcode.toNat = 0x2A ∧
    (raset cap m a b).1.dataLength = 4 ∧ (caset cap m a b).1.dataLength = 4 ∧
    (raset cap m a b).1.dataDirection = .WRITE_7789 ∧
    (caset cap m a b).1.dataDirection = .WRITE_7789 ∧
    (raset cap m a b).1.payload.isExternal = false ∧
    (caset cap m a b).1.payload.isExternal = false ∧
    (raset cap m a b).1.payload = (caset cap m a b).1.payload ∧
    builtData cap (raset cap m a b) = [a >>> 8, a &&& 0xFF, b >>> 8, b &&& 0xFF] ∧
    builtData cap (caset cap m a b) = [a >>> 8, a &&& 0xFF, b >>> 8, b &&& 0xFF] := by
  have h1 : (a >>> 8 &&& 255) % 256 = a >>> 8 := by
    rw [and_255, Nat.shiftRight_eq_div_pow]; omega
  have h2 : (b >>> 8 &&& 255) % 256 = b >>> 8 := by
    rw [and_255, Nat.shiftRight_eq_div_pow]; omega
  have h3 : (a &&& 255) % 256 = a &&& 255 := by rw [and_255]; omega
  have h4 : (b &&& 255) % 256 = b &&& 255 := by rw [and_255]; omega
  refine ⟨?_, ?_, ?_, ?_, ?_, ?_, ?_, ?_, ?_, ?_, ?_, ?_, ?_⟩ <;> rcases hcap with rfl | rfl <;>
    simp [raset, caset, newCommand, getBuffer_internal, store, builtData, St7789Command.data,
      MUST_USE_EXTERNAL_BUFFER, SIZE_OF_POINTER_TO_BYTE_ARRAY, PayloadUnion.asInternalBuffer,
      St7789Opcode.toNat, List.range, List.range.loop, h1, h2, h3, h4]

/-- Witness of `raset_same_layout_as_caset` on a 32 bit target. -/
theorem raset_same_layout_as_caset_witness :
    (4 = 4 ∨ 4 = 8) ∧ 0x00EF < 2 ^ 16 ∧ 0x013F < 2 ^ 16 ∧
    (raset 4 dirtyMachine 0x00EF 0x013F).1
      = { (caset 4 dirtyMachine 0x00EF 0x013F).1 with opcode := .RASET } ∧
    builtData 4 (raset 4 dirtyMachine 0x00EF 0x013F)
      = [0x00EF >>> 8, 0x00EF &&& 0xFF, 0x013F >>> 8, 0x013F &&& 0xFF] :=
  ⟨Or.inl rfl, by decide, by decide,
   (raset_same_layout_as_caset 4 (Or.inl rfl) dirtyMachine 0x00EF 0x013F
      (by decide) (by decide)).1,
   (raset_same_layout_as_caset 4 (Or.inl rfl) dirtyMachine 0x00EF 0x013F
      (by decide) (by decide)).2.2.2.2.2.2.2.2.2.2.2.1⟩

/-! ## C18 : inline bytes are never freed -/

/-- C18: for every command value whose `dataLength` fits in the pointer size,
whatever its flag `keepExternalBufferOnDelete` and whatever its union holds,
the destructor of the owning job evaluates no `delete` of a payload buffer: it
deletes the command and the transactions only. This covers the commands of
`ramwr` and `ramwrc` with `size` within the pointer size, whose flag is false. -/
theorem inline_payload_never_freed (cap : Nat) (c : St7789Command) (hlen : c.dataLength ≤ cap)
    (tc td : Option Nat) :
    (St7789Job.mk (some c) tc td).releases cap
      = [Event.deleteCommand] ++ (tc.map Event.deleteTransaction).toList
          ++ (td.map Event.deleteTransaction).toList ∧
    ((St7789Job.mk (some c) tc td).releases cap).filter Event.isDeleteBuffer = [] ∧
    (∀ (m : Machine) (size buffer : Nat), size ≤ cap →
      (ramwr cap m size buffer).1.keepExternalBufferOnDelete = false ∧
      (ramwr cap m size buffer).1.dataLength ≤ cap ∧
      ((St7789Job.mk (some (ramwr cap m size buffer).1) tc td).releases cap).filter
        Event.isDeleteBuffer = [] ∧
      (ramwrc cap m size buffer).1.keepExternalBufferOnDelete = false ∧
      (ramwrc cap m size buffer).1.dataLength ≤ cap ∧
      ((St7789Job.mk (some (ramwrc cap m size buffer).1) tc td).releases cap).filter
        Event.isDeleteBuffer = []) := by
  have key : ∀ k : St7789Command, k.dataLength ≤ cap →
      (St7789Job.mk (some k) tc td).releases cap
        = [Event.deleteCommand] ++ (tc.map Event.deleteTransaction).toList
            ++ (td.map Event.deleteTransaction).toList := by
    intro k hk
    cases tc <;> cases td <;>
      simp [St7789Job.releases, MUST_USE_EXTERNAL_BUFFER, SIZE_OF_POINTER_TO_BYTE_ARRAY,
        Nat.not_lt.mpr hk]
  have nofree : ∀ k : St7789Command, k.dataLength ≤ cap →
      ((St7789Job.mk (some k) tc td).releases cap).filter Event.isDeleteBuffer = [] := by
    intro k hk
    rw [key k hk]
    cases tc <;> cases td <;> simp [Event.isDeleteBuffer]
  have bulk : ∀ (op : St7789Opcode) (m : Machine) (size buffer : Nat), size ≤ cap →
      (setupMessageFromUnmanagedMemory cap (newCommand cap m op size .WRITE_7789 false).1
        (newCommand cap m op size .WRITE_7789 false).2 size buffer).1.keepExternalBufferOnDelete
        = false ∧
      (setupMessageFromUnmanagedMemory cap (newCommand cap m op size .WRITE_7789 false).1
        (newCommand cap m op size .WRITE_7789 false).2 size buffer).1.dataLength ≤ cap := by
    intro op m size buffer hs
    obtain ⟨_, h2, h3, _⟩ := copyLoop_fields cap
      (newCommand cap m op size .WRITE_7789 false).2.mem buffer size 0
      ((newCommand cap m op size .WRITE_7789 false).1,
       (newCommand cap m op size .WRITE_7789 false).2) rfl
    simp only [setupMessageFromUnmanagedMemory, MUST_USE_EXTERNAL_BUFFER,
      SIZE_OF_POINTER_TO_BYTE_ARRAY, decide_eq_true_eq, Nat.not_lt.mpr hs, if_false]
    rw [h2, h3]
    exact ⟨rfl, hs⟩
  refine ⟨key c hlen, nofree c hlen, ?_⟩
  intro m size buffer hs
  obtain ⟨a1, a2⟩ := bulk .RAMWR m size buffer hs
  obtain ⟨b1, b2⟩ := bulk .RAMWRC m size buffer hs
  exact ⟨a1, a2, nofree _ a2, b1, b2, nofree _ b2⟩

/-- Witness of `inline_payload_never_freed` on a 32 bit target. -/
theorem inline_payload_never_freed_witness :
    strayCommand.dataLength ≤ 4 ∧
    ((St7789Job.mk (some strayCommand) (some 1) (some 2)).releases 4).filter
      Event.isDeleteBuffer = [] ∧
    (St7789Job.mk (some strayCommand) (some 1) (some 2)).releases 4
      = [Event.deleteCommand] ++ ((some 1).map Event.deleteTransaction).toList
          ++ ((some 2).map Event.deleteTransaction).toList :=
  ⟨by decide,
   (inline_payload_never_freed 4 strayCommand (by decide) (some 1) (some 2)).2.1,
   (inline_payload_never_freed 4 strayCommand (by decide) (some 1) (some 2)).1⟩

/-! ## C19 : every payload byte is written -/

/-- The data of a bulk write are the `size` bytes of the caller buffer, whether
they were copied or are read through the pointer. -/
theorem bulk_data (cap : Nat) (m : Machine) (op : St7789Opcode) (size buffer : Nat) :
    builtData cap (setupMessageFromUnmanagedMemory cap
        (newCommand cap m op size .WRITE_7789 false).1
        (newCommand cap m op size .WRITE_7789 false).2 size buffer)
      = (List.range size).map (fun i => readByte m.mem (buffer + i)) := by
  by_cases h : cap < size
  · simp [builtData, St7789Command.data, setupMessageFromUnmanagedMemory,
      MUST_USE_EXTERNAL_BUFFER, SIZE_OF_POINTER_TO_BYTE_ARRAY, h, newCommand,
      PayloadUnion.asExternalBuffer]
  · have hs : size ≤ cap := Nat.le_of_not_lt h
    obtain ⟨bs', h1, h2, h3⟩ := copyLoop_internal cap
      (newCommand cap m op size .WRITE_7789 false).2.mem buffer size 0
      (newCommand cap m op size .WRITE_7789 false).1
      (newCommand cap m op size .WRITE_7789 false).2
      ((List.range cap).map (fun i => m.garbage i % 256)) rfl (by simp) (by omega)
    have ht : bs'.take size = (List.range size).map (fun i => readByte m.mem (buffer + i)) := by
      apply List.ext_getElem
      · simp [h2, hs]
      · intro j hj1 hj2
        have hj : j < size := by simpa using hj2
        have := h3 j
        rw [if_pos (by omega), List.getD_eq_getElem?_getD,
          List.getElem?_eq_getElem (by omega)] at this
        simpa [newCommand] using this
    simp only [setupMessageFromUnmanagedMemory, MUST_USE_EXTERNAL_BUFFER,
      SIZE_OF_POINTER_TO_BYTE_ARRAY, decide_eq_true_eq, h, if_false, h1]
    simp [builtData, St7789Command.data, newCommand, MUST_USE_EXTERNAL_BUFFER,
      SIZE_OF_POINTER_TO_BYTE_ARRAY, h, PayloadUnion.asInternalBuffer, ht]

/-- C19: for a pointer size of 4 or 8, every call of a factory and any two
machines (two contents of the fresh command, of the fresh byte array and of
the rest of the memory, two allocator addresses) that hold the same bytes in
the caller buffer of a bulk write, the two commands agree on opcode, length
and direction, and their data (the payload bytes below `dataLength`) are
equal and `dataLength` long: no transmitted byte is left as the allocation
found it. -/
theorem payload_depends_on_arguments_only (cap : Nat) (hcap : cap = 4 ∨ cap = 8) (call : Call)
    (m1 m2 : Machine) (hmem : ∀ a ∈ call.reads, readByte m1.mem a = readByte m2.mem a) :
    (call.run cap m1).1.opcode = (call.run cap m2).1.opcode ∧
    (call.run cap m1).1.dataLength = (call.run cap m2).1.dataLength ∧
    (call.run cap m1).1.dataDirection = (call.run cap m2).1.dataDirection ∧
    builtData cap (call.run cap m1) = builtData cap (call.run cap m2) ∧
    (builtData cap (call.run cap m1)).length = (call.run cap m1).1.dataLength := by
  have hop : (call.run cap m1).1.opcode.toNat = (call.run cap m2).1.opcode.toNat := by
    have a := congrArg Prod.fst (run_header cap m1 call).1
    have b := congrArg Prod.fst (run_header cap m2 call).1
    simp only at a b
    rw [a, b]
  have hlen1 : (call.run cap m1).1.dataLength = call.opcodeAndLength.2 :=
    congrArg Prod.snd (run_header cap m1 call).1
  have hlen2 : (call.run cap m2).1.dataLength = call.opcodeAndLength.2 :=
    congrArg Prod.snd (run_header cap m2 call).1
  have hinj : ∀ a b : St7789Opcode, a.toNat = b.toNat → a = b := by
    intro a b; cases a <;> cases b <;> simp [St7789Opcode.toNat]
  have h14 : cap < 14 := by rcases hcap with rfl | rfl <;> decide
  refine ⟨hinj _ _ hop, by rw [hlen1, hlen2],
    by rw [(run_header cap m1 call).2, (run_header cap m2 call).2], ?_, ?_⟩
  · cases call
    case ramwr size buffer =>
      simp only [Call.run, ramwr]
      rw [bulk_data, bulk_data]
      apply List.map_congr_left
      intro i hi
      exact hmem _ (List.mem_map.mpr ⟨i, hi, rfl⟩)
    case ramwrc size buffer =>
      simp only [Call.run, ramwrc]
      rw [bulk_data, bulk_data]
      apply List.map_congr_left
      intro i hi
      exact hmem _ (List.mem_map.mpr ⟨i, hi, rfl⟩)
    case pvgamctrl => simp only [Call.run, pvgamctrl_data cap h14]
    case nvgamctrl => simp only [Call.run, nvgamctrl_data cap h14]
    all_goals
      rcases hcap with rfl | rfl <;>
        simp [Call.run, nop, swreset, slpout, noron, invon, dispon, caset, raset, madctl, colmod,
          porctrl, gctrl, vcom, lcmctrl, vdvvrhen, vrhs, vdvs, frctrl2, pwctrl1, newCommand,
          getBuffer_internal, getBuffer_external, store, builtData, St7789Command.data,
          MUST_USE_EXTERNAL_BUFFER, SIZE_OF_POINTER_TO_BYTE_ARRAY, PayloadUnion.asInternalBuffer,
          PayloadUnion.asExternalBuffer, readByte, List.range, List.range.loop]
  · rw [hlen1]
    cases call
    case ramwr size buffer =>
      simp only [Call.run, ramwr]
      rw [bulk_data]
      simp [Call.opcodeAndLength]
    case ramwrc size buffer =>
      simp only [Call.run, ramwrc]
      rw [bulk_data]
      simp [Call.opcodeAndLength]
    case pvgamctrl => simp [Call.run, pvgamctrl_data cap h14, Call.opcodeAndLength]
    case nvgamctrl => simp [Call.run, nvgamctrl_data cap h14, Call.opcodeAndLength]
    all_goals
      rcases hcap with rfl | rfl <;>
        simp [Call.run, Call.opcodeAndLength, nop, swreset, slpout, noron, invon, dispon, caset,
          raset, madctl, colmod, porctrl, gctrl, vcom, lcmctrl, vdvvrhen, vrhs, vdvs, frctrl2,
          pwctrl1, newCommand, getBuffer_internal, getBuffer_external, store, builtData,
          St7789Command.data, MUST_USE_EXTERNAL_BUFFER, SIZE_OF_POINTER_TO_BYTE_ARRAY,
          PayloadUnion.asInternalBuffer, PayloadUnion.asExternalBuffer, readByte, List.range,
          List.range.loop]

/-- Witness of `payload_depends_on_arguments_only`: `porctrl` on a 32 bit
target, built in zero filled and in dirty memory. -/
theorem payload_depends_on_arguments_only_witness :
    (4 = 4 ∨ 4 = 8) ∧
    (∀ a ∈ (Call.porctrl 1 2 true 3 4 5 6).reads,
      readByte cleanMachine.mem a = readByte dirtyMachine.mem a) ∧
    builtData 4 ((Call.porctrl 1 2 true 3 4 5 6).run 4 cleanMachine)
      = builtData 4 ((Call.porctrl 1 2 true 3 4 5 6).run 4 dirtyMachine) :=
  ⟨Or.inl rfl, by simp [Call.reads],
   (payload_depends_on_arguments_only 4 (Or.inl rfl) (.porctrl 1 2 true 3 4 5 6) cleanMachine
      dirtyMachine (by simp [Call.reads])).2.2.2.1⟩

/-! ## C20 : the writes stay inside the buffer -/

/-- A bulk write never stores outside of the internal buffer. -/
theorem bulk_in_bounds (cap : Nat) (m : Machine) (op : St7789Opcode) (size buffer : Nat) :
    (setupMessageFromUnmanagedMemory cap (newCommand cap m op size .WRITE_7789 false).1
        (newCommand cap m op size .WRITE_7789 false).2 size buffer).2.outOfBounds
      = m.outOfBounds := by
  by_cases h : cap < size
  · simp [setupMessageFromUnmanagedMemory, MUST_USE_EXTERNAL_BUFFER,
      SIZE_OF_POINTER_TO_BYTE_ARRAY, h, newCommand]
  · obtain ⟨bs', h1, _, _⟩ := copyLoop_internal cap
      (newCommand cap m op size .WRITE_7789 false).2.mem buffer size 0
      (newCommand cap m op size .WRITE_7789 false).1
      (newCommand cap m op size .WRITE_7789 false).2
      ((List.range cap).map (fun i => m.garbage i % 256)) rfl (by simp) (by omega)
    simp only [setupMessageFromUnmanagedMemory, MUST_USE_EXTERNAL_BUFFER,
      SIZE_OF_POINTER_TO_BYTE_ARRAY, decide_eq_true_eq, h, if_false, h1]
    simp [newCommand]

/-- C20: for a pointer size of 4 or 8, no call of a factory stores outside of
the buffer that `message` points to (the internal buffer of `cap` bytes when
`dataLength` fits, the new array of `dataLength` bytes otherwise): the machine
flag `outOfBounds` is left as it was. For a pointer size below 4 the ten
factories of one or two payload bytes, which store at indices 0 to 3, do store
outside of it. -/
theorem factory_writes_stay_in_buffer (cap : Nat) (hcap : cap = 4 ∨ cap = 8) (m : Machine)
    (call : Call) :
    (call.run cap m).2.outOfBounds = m.outOfBounds ∧
    (∀ c : St7789Command, (getBufferUsingManagedBufferIfNeeded cap c m).1
      = if cap < c.dataLength then .external m.fresh c.dataLength else .internal) ∧
    (∀ (small : Nat) (m' : Machine) (call' : Call), small < 4 →
      call'.index ∈ [9, 10, 13, 14, 15, 16, 17, 18, 19, 20] →
      (call'.run small m').2.outOfBounds = true) := by
  refine ⟨?_, ?_, ?_⟩
  · cases call
    case ramwr size buffer => exact bulk_in_bounds cap m .RAMWR size buffer
    case ramwrc size buffer => exact bulk_in_bounds cap m .RAMWRC size buffer
    all_goals
      rcases hcap with rfl | rfl <;>
        simp [Call.run, nop, swreset, slpout, noron, invon, dispon, caset, raset, madctl, colmod,
          porctrl, gctrl, vcom, lcmctrl, vdvvrhen, vrhs, vdvs, frctrl2, pwctrl1, pvgamctrl,
          nvgamctrl, newCommand, getBuffer_internal, getBuffer_external, store]
  · intro c
    by_cases h : cap < c.dataLength
    · simp [getBuffer_external, h]
    · simp [getBuffer_internal, Nat.le_of_not_lt h, h]
  · intro small m' call' hs hidx
    have hcases : small = 0 ∨ small = 1 ∨ small = 2 ∨ small = 3 := by omega
    cases call' <;> simp [Call.index] at hidx <;>
      rcases hcases with rfl | rfl | rfl | rfl <;>
      simp [Call.run, madctl, colmod, gctrl, vcom, lcmctrl, vdvvrhen, vrhs, vdvs, frctrl2,
        pwctrl1, newCommand, getBuffer_internal, getBuffer_external, store]

/-- Witness of `factory_writes_stay_in_buffer`: `vdvvrhen` on a 32 bit target. -/
theorem factory_writes_stay_in_buffer_witness :
    (4 = 4 ∨ 4 = 8) ∧
    ((Call.vdvvrhen true).run 4 cleanMachine).2.outOfBounds = cleanMachine.outOfBounds ∧
    ((Call.vdvvrhen true).run 2 cleanMachine).2.outOfBounds = true :=
  ⟨Or.inl rfl,
   (factory_writes_stay_in_buffer 4 (Or.inl rfl) cleanMachine (.vdvvrhen true)).1,
   (factory_writes_stay_in_buffer 4 (Or.inl rfl) cleanMachine (.vdvvrhen true)).2.2 2
      cleanMachine (.vdvvrhen true) (by decide) (by simp [Call.index])⟩

/-! ## C21 : positive and negative gamma commands -/

/-- C21: for a pointer size of 4 or 8 and every tuple of eighteen arguments
(8 bit values included), `nvgamctrl` and `pvgamctrl` return the same command
but for the opcode (`0xE1` against `0xE0`) and leave the same machine state:
same length 14, same direction write, same flag `keepExternalBufferOnDelete`,
same external buffer, and byte for byte the same fourteen payload bytes. -/
theorem nvgamctrl_same_encoder_as_pvgamctrl (cap : Nat) (hcap : cap = 4 ∨ cap = 8) (m : Machine)
    (g : GammaSettings) :
    (g.nvgamctrl cap m).1 = { (g.pvgamctrl cap m).1 with opcode := .NVGAMCTRL } ∧
    (g.nvgamctrl cap m).2 = (g.pvgamctrl cap m).2 ∧
    (g.nvgamctrl cap m).1.opcode.toNat = 0xE1 ∧ (g.pvgamctrl cap m).1.opcode.toNat = 0xE0 ∧
    (g.nvgamctrl cap m).1.dataLength = 14 ∧ (g.pvgamctrl cap m).1.dataLength = 14 ∧
    (g.nvgamctrl cap m).1.dataDirection = .WRITE_7789 ∧
    (g.pvgamctrl cap m).1.dataDirection = .WRITE_7789 ∧
    (g.nvgamctrl cap m).1.keepExternalBufferOnDelete = false ∧
    (g.pvgamctrl cap m).1.keepExternalBufferOnDelete = false ∧
    (g.nvgamctrl cap m).1.payload = (g.pvgamctrl cap m).1.payload ∧
    builtData cap (g.nvgamctrl cap m) = builtData cap (g.pvgamctrl cap m) ∧
    (builtData cap (g.nvgamctrl cap m)).length = 14 := by
  have h14 : cap < 14 := by rcases hcap with rfl | rfl <;> decide
  refine ⟨?_, ?_, ?_, ?_, ?_, ?_, ?_, ?_, ?_, ?_, ?_, ?_, ?_⟩
  case refine_12 =>
    simp only [GammaSettings.nvgamctrl, GammaSettings.pvgamctrl, nvgamctrl_data cap h14,
      pvgamctrl_data cap h14]
  case refine_13 =>
    simp [GammaSettings.nvgamctrl, nvgamctrl_data cap h14]
  all_goals
    simp [GammaSettings.nvgamctrl, GammaSettings.pvgamctrl, nvgamctrl, pvgamctrl, newCommand,
      getBuffer_external, h14, store, St7789Opcode.toNat]

/-- Witness of `nvgamctrl_same_encoder_as_pvgamctrl` on a 64 bit host. -/
theorem nvgamctrl_same_encoder_as_pvgamctrl_witness :
    (8 = 4 ∨ 8 = 8) ∧
    (gammaWide.nvgamctrl 8 dirtyMachine).1
      = { (gammaWide.pvgamctrl 8 dirtyMachine).1 with opcode := .NVGAMCTRL } ∧
    builtData 8 (gammaWide.nvgamctrl 8 dirtyMachine)
      = builtData 8 (gammaWide.pvgamctrl 8 dirtyMachine) :=
  ⟨Or.inr rfl,
   (nvgamctrl_same_encoder_as_pvgamctrl 8 (Or.inr rfl) dirtyMachine gammaWide).1,
   (nvgamctrl_same_encoder_as_pvgamctrl 8 (Or.inr rfl) dirtyMachine gammaWide).2.2.2.2.2.2.2.2.2.2.2.1⟩

end St7789
